import Mathlib

/-!
Verification model of the space-invaders simulation in
`src/space_invaders_bevy/src/main.rs`.

The Bevy app is embedded shallowly: each gameplay system of the `Update`
schedule becomes a pure function on an explicit `GameState`; f32 arithmetic is
idealised as exact rationals; the u32 resources (`Score`, `PlayerLives`,
`Level`) are natural numbers reduced modulo 2^32 exactly where the Rust code
performs u32 arithmetic.  Entity spawns and despawns issued through Bevy
`Commands` are deferred within a system (queries inside a system see the
world as it was when the system started) and applied at the sync point after
the system, matching Bevy's deferred command application; systems run
sequentially in the order they are listed in the `add_systems(Update, ...)`
tuple.  The window half-width read from `windows.single()` is a parameter
of the systems that use it, held fixed across a run (fixed viewport).
The pure-UI systems (`game_over_screen`, `update_*_text`, camera and text
setup) touch no simulation state and are omitted.  The random choice made by
`iter().choose(&mut rand::rng())` in `enemy_fire_bullet` is injected as an
input, as is the per-frame `Time` delta and the keyboard state.
-/

/-- One `u32` wrap-around modulus. -/
def U32 : Nat := 4294967296

/-- An entity with its `Transform` translation; sprite sizes are fixed per
kind in the source, so they are constants of the collision tests below. -/
structure Entity where
  id : Nat
  x : ℚ
  y : ℚ
deriving DecidableEq, Repr

/-- The whole simulation-relevant world: the four entity kinds and every
gameplay resource of `main.rs` (`EnemyMovement.direction`, `GameOver`,
`Score`, `PlayerLives`, `Level`, `EnemySpeed`, the two shoot timers), plus
the id counter standing for Bevy's entity allocator. -/
structure GameState where
  players : List Entity
  enemies : List Entity
  bullets : List Entity
  enemy_bullets : List Entity
  direction : ℚ
  game_over : Bool
  score : Nat
  lives : Nat
  level : Nat
  enemy_speed : ℚ
  shoot_elapsed : ℚ
  enemy_shoot_elapsed : ℚ
  next_id : Nat
deriving DecidableEq, Repr

/-- Per-frame external input: time delta, held keys (arrows, space), the
edge-triggered `just_pressed` keys R and N, and the random index used to pick
the firing enemy. -/
structure FrameInput where
  dt : ℚ
  left : Bool
  right : Bool
  space : Bool
  keyR : Bool
  keyN : Bool
  choice : Nat
deriving DecidableEq, Repr

-- === CONSTANTS (from main.rs) ===

def BULLET_SPEED : ℚ := 500
def PLAYER_SHOOT_COOLDOWN : ℚ := 3 / 10
def ENEMY_SPEED : ℚ := 100
def ENEMY_STEP_DOWN : ℚ := 20
def ENEMY_BULLET_SPEED : ℚ := 250
def ENEMY_SHOOT_COOLDOWN : ℚ := 6 / 5

/-- Bevy repeating `Timer`: `tick` adds the delta; when the accumulated time
reaches the duration the timer reports finished and wraps the elapsed time
modulo the duration. -/
def tick_timer (elapsed dt dur : ℚ) : ℚ × Bool :=
  let e := elapsed + dt
  if dur ≤ e then (e - dur * ((Rat.floor (e / dur) : ℤ) : ℚ), true) else (e, false)

/-- Rust `f32::clamp`. -/
def clampQ (x lo hi : ℚ) : ℚ := if x < lo then lo else if x > hi then hi else x

/-- `spawn_player`: one player sprite at the home position `(0, -200)`. -/
def spawn_player_entity (idn : Nat) : Entity := { id := idn, x := 0, y := -200 }

/-- `spawn_enemies`: rows = 5, cols = 8, spacing (60, 40),
`start_x = -(cols/2)*spacing.x + spacing.x/2`, `start_y = 100`,
spawned row-major exactly as the nested `for` loops do. -/
def spawn_enemies_list (base : Nat) : List Entity :=
  ((List.range 5).map (fun row => (List.range 8).map (fun col =>
    { id := base + row * 8 + col,
      x := -(8 / 2 : ℚ) * 60 + 60 / 2 + (col : ℚ) * 60,
      y := 100 + (row : ℚ) * 40 }))).flatten

-- === GAME LOGIC SYSTEMS ===

/-- `player_movement`: direction from held arrow keys, `x += dir*300*dt`,
then clamp into `[-half_width + 25, half_width - 25]`. -/
def player_movement (half_width : ℚ) (i : FrameInput) (s : GameState) : GameState :=
  let dir : ℚ := (if i.left then -1 else 0) + (if i.right then 1 else 0)
  { s with players := s.players.map (fun p =>
      { p with x := clampQ (p.x + dir * 300 * i.dt) (-half_width + 25) (half_width - 25) }) }

/-- `bullet_movement`: player bullets rise by `BULLET_SPEED*dt` and are
despawned once `y > 300`. -/
def bullet_movement (i : FrameInput) (s : GameState) : GameState :=
  let moved := s.bullets.map (fun b => { b with y := b.y + BULLET_SPEED * i.dt })
  { s with bullets := moved.filter (fun b => decide (¬ b.y > 300)) }

/-- `fire_bullet`: tick the repeating shoot timer; if space is held and the
timer finished and there is exactly one player (`get_single`), spawn a bullet
at the player's position offset 20 upward. -/
def fire_bullet (i : FrameInput) (s : GameState) : GameState :=
  let t := tick_timer s.shoot_elapsed i.dt PLAYER_SHOOT_COOLDOWN
  let s1 := { s with shoot_elapsed := t.1 }
  if i.space && t.2 then
    match s1.players with
    | [p] => { s1 with
        bullets := s1.bullets ++ [{ id := s1.next_id, x := p.x, y := p.y + 20 }],
        next_id := s1.next_id + 1 }
    | _ => s1
  else s1

/-- The bounds-check loop of `enemy_movement`: scan enemies in order; at the
first enemy whose predicted `next_x` leaves `[-half_width+20, half_width-20]`
set `need_step_down` and negate the shared direction, then break. -/
def enemy_bounds_check (dir speed dt half_width : ℚ) : List Entity → Bool × ℚ
  | [] => (false, dir)
  | e :: rest =>
    let next_x := e.x + dir * speed * dt
    if decide (next_x > half_width - 20) || decide (next_x < -half_width + 20) then
      (true, -dir)
    else enemy_bounds_check dir speed dt half_width rest

/-- `enemy_movement`: check-before-move; on a violation every enemy steps
down by `ENEMY_STEP_DOWN` with no horizontal movement, otherwise every enemy
advances horizontally by `direction * enemy_speed * dt`. -/
def enemy_movement (half_width : ℚ) (i : FrameInput) (s : GameState) : GameState :=
  let c := enemy_bounds_check s.direction s.enemy_speed i.dt half_width s.enemies
  { s with
    direction := c.2,
    enemies :=
      if c.1 then s.enemies.map (fun e => { e with y := e.y - ENEMY_STEP_DOWN })
      else s.enemies.map (fun e => { e with x := e.x + c.2 * s.enemy_speed * i.dt }) }

/-- AABB test of `bullet_enemy_collision`: bullet centre strictly inside the
enemy box of half-extents (20, 10). -/
def hits_enemy (b e : Entity) : Bool :=
  decide (b.x < e.x + 20) && decide (b.x > e.x - 20) &&
  decide (b.y < e.y + 10) && decide (b.y > e.y - 10)

/-- Accumulator of the `bullet_enemy_collision` double loop: queued bullet
and enemy despawns plus the immediately-mutated `Score` and `GameOver`
resources. -/
structure BecAcc where
  despawned_bullets : List Nat
  despawned_enemies : List Nat
  score : Nat
  game_over : Bool
deriving DecidableEq, Repr

/-- The outer loop of `bullet_enemy_collision`: for each bullet, find the
first enemy (in query order) whose box contains it — the inner loop breaks on
the first hit — queue both despawns, add 100 to the score, and set the
game-over flag if the score is then exactly 4000.  Despawns are deferred, so
every bullet is tested against the original enemy list. -/
def bec_loop (enemies : List Entity) : List Entity → BecAcc → BecAcc
  | [], acc => acc
  | b :: bs, acc =>
    match enemies.find? (hits_enemy b) with
    | some e =>
      bec_loop enemies bs
        { despawned_bullets := acc.despawned_bullets ++ [b.id],
          despawned_enemies := acc.despawned_enemies ++ [e.id],
          score := (acc.score + 100) % U32,
          game_over := acc.game_over || decide ((acc.score + 100) % U32 = 4000) }
    | none => bec_loop enemies bs acc

/-- `bullet_enemy_collision` with its deferred despawns applied at the end. -/
def bullet_enemy_collision (s : GameState) : GameState :=
  let acc := bec_loop s.enemies s.bullets ⟨[], [], s.score, s.game_over⟩
  { s with
    bullets := s.bullets.filter (fun b => decide (b.id ∉ acc.despawned_bullets)),
    enemies := s.enemies.filter (fun e => decide (e.id ∉ acc.despawned_enemies)),
    score := acc.score,
    game_over := acc.game_over }

/-- `check_game_over`: any enemy at `y ≤ -250` sets the game-over flag. -/
def check_game_over (s : GameState) : GameState :=
  if s.enemies.any (fun e => decide (e.y ≤ -250)) then { s with game_over := true } else s

/-- `check_win_condition`: an empty enemy query with the flag not yet set
sets the game-over flag. -/
def check_win_condition (s : GameState) : GameState :=
  if s.enemies.isEmpty && !s.game_over then { s with game_over := true } else s

/-- `enemy_fire_bullet`: tick the repeating enemy timer; when it finishes and
an enemy exists, the injected random choice selects the shooter and an enemy
bullet spawns at its position offset 20 downward. -/
def enemy_fire_bullet (i : FrameInput) (s : GameState) : GameState :=
  let t := tick_timer s.enemy_shoot_elapsed i.dt ENEMY_SHOOT_COOLDOWN
  let s1 := { s with enemy_shoot_elapsed := t.1 }
  if t.2 then
    match s1.enemies.get? (i.choice % s1.enemies.length) with
    | some en => { s1 with
        enemy_bullets := s1.enemy_bullets ++ [{ id := s1.next_id, x := en.x, y := en.y - 20 }],
        next_id := s1.next_id + 1 }
    | none => s1
  else s1

/-- `enemy_bullet_movement`: enemy bullets fall by `ENEMY_BULLET_SPEED*dt`
and are despawned once `y < -320`. -/
def enemy_bullet_movement (i : FrameInput) (s : GameState) : GameState :=
  let moved := s.enemy_bullets.map (fun b => { b with y := b.y - ENEMY_BULLET_SPEED * i.dt })
  { s with enemy_bullets := moved.filter (fun b => decide (¬ b.y < -320)) }

/-- AABB test of the player-hit systems: a point strictly inside the player
box of half-extents (25, 10). -/
def hits_player (b p : Entity) : Bool :=
  decide (b.x < p.x + 25) && decide (b.x > p.x - 25) &&
  decide (b.y < p.y + 10) && decide (b.y > p.y - 10)

/-- The double loop of `enemy_bullet_player_collision`: each enemy bullet is
tested against the original player query (despawns are deferred); on the
first overlapping player the bullet and that player are queued for despawn
and the inner loop breaks.  Returns the queued bullet ids and player ids. -/
def ebpc_hits (players : List Entity) : List Entity → List Nat × List Nat
  | [] => ([], [])
  | b :: bs =>
    match players.find? (hits_player b) with
    | some p => ((ebpc_hits players bs).1.cons b.id, (ebpc_hits players bs).2.cons p.id)
    | none => ebpc_hits players bs

/-- `enemy_bullet_player_collision`: apply the queued despawns; if any
collision was detected, decrement `PlayerLives` (an unguarded u32 `-= 1`,
modelled as wrap-around) and either respawn the player at home (when
`lives > 1`) or set the game-over flag. -/
def enemy_bullet_player_collision (s : GameState) : GameState :=
  let h := ebpc_hits s.players s.enemy_bullets
  let s1 := { s with
    enemy_bullets := s.enemy_bullets.filter (fun b => decide (b.id ∉ h.1)),
    players := s.players.filter (fun p => decide (p.id ∉ h.2)) }
  if h.1.isEmpty then s1
  else if s1.lives > 1 then
    { s1 with
      lives := (s1.lives + (U32 - 1)) % U32,
      players := s1.players ++ [spawn_player_entity s1.next_id],
      next_id := s1.next_id + 1 }
  else
    { s1 with lives := (s1.lives + (U32 - 1)) % U32, game_over := true }

/-- `enemy_player_collision`: returns immediately when the game-over flag is
set; otherwise any enemy centre strictly inside the player box sets it. -/
def enemy_player_collision (s : GameState) : GameState :=
  if s.game_over then s
  else if s.enemies.any (fun e => s.players.any (fun p => hits_player e p)) then
    { s with game_over := true }
  else s

/-- `restart_game`: on R `just_pressed` while the game-over flag is set,
despawn every enemy, bullet, enemy bullet and player, reset `Score`,
`PlayerLives`, `Level`, `EnemySpeed` and the flag, respawn the player and
spawn a fresh 5×8 wave. -/
def restart_game (i : FrameInput) (s : GameState) : GameState :=
  if s.game_over && i.keyR then
    { s with
      players := [spawn_player_entity s.next_id],
      enemies := spawn_enemies_list (s.next_id + 1),
      bullets := [],
      enemy_bullets := [],
      score := 0,
      lives := 3,
      level := 1,
      game_over := false,
      enemy_speed := ENEMY_SPEED,
      next_id := s.next_id + 41 }
  else s

/-- `next_level`: on N `just_pressed` while the enemy query is empty (the
game-over flag is NOT consulted, despite the comment in the source), despawn
bullets, enemy bullets and player, increment `Level`, raise `EnemySpeed` by
50, clear the flag, respawn the player and spawn the next 5×8 wave. -/
def next_level (i : FrameInput) (s : GameState) : GameState :=
  if s.enemies.isEmpty && i.keyN then
    { s with
      players := [spawn_player_entity s.next_id],
      enemies := spawn_enemies_list (s.next_id + 1),
      bullets := [],
      enemy_bullets := [],
      level := (s.level + 1) % U32,
      enemy_speed := s.enemy_speed + 50,
      game_over := false,
      next_id := s.next_id + 41 }
  else s

-- === FRAME COMPOSITION ===

/-- The frame state after the movement, firing and collision/progression
systems, up to and including `enemy_player_collision` — everything that runs
before the restart/level-transition controllers in the `Update` tuple. -/
def pre_restart (half_width : ℚ) (i : FrameInput) (s : GameState) : GameState :=
  enemy_player_collision (enemy_bullet_player_collision
    (enemy_bullet_movement i (enemy_fire_bullet i (check_win_condition (check_game_over
    (bullet_enemy_collision (enemy_movement half_width i (fire_bullet i
    (bullet_movement i (player_movement half_width i s))))))))))

/-- The frame state just before `next_level` runs. -/
def pre_next_level (half_width : ℚ) (i : FrameInput) (s : GameState) : GameState :=
  restart_game i (pre_restart half_width i s)

/-- One full `Update` pass: the gameplay systems composed in the order of the
`add_systems(Update, ...)` tuple (the UI-only systems are identities on this
state and are omitted). -/
def frame (half_width : ℚ) (i : FrameInput) (s : GameState) : GameState :=
  next_level i (pre_next_level half_width i s)

/-- The world after the `Startup` systems: player id 0 at home, the 5×8 wave
with ids 1..40, and every resource at its `insert_resource` initial value. -/
def init_state : GameState :=
  { players := [spawn_player_entity 0],
    enemies := spawn_enemies_list 1,
    bullets := [],
    enemy_bullets := [],
    direction := 1,
    game_over := false,
    score := 0,
    lives := 3,
    level := 1,
    enemy_speed := ENEMY_SPEED,
    shoot_elapsed := 0,
    enemy_shoot_elapsed := 0,
    next_id := 41 }

/-- Run a sequence of frames. -/
def run (half_width : ℚ) (s : GameState) : List FrameInput → GameState
  | [] => s
  | i :: is => run half_width (frame half_width i s) is

set_option maxHeartbeats 10000000
set_option maxRecDepth 100000

/-- Running a concatenated schedule runs the pieces in sequence. -/
theorem run_append (h : ℚ) (s : GameState) (a b : List FrameInput) :
    run h s (a ++ b) = run h (run h s a) b := by
  induction a generalizing s with
  | nil => rfl
  | cons i is ih => simpa [run] using ih (frame h i s)


/-! ### Characterising the formation bounds check -/

/-- The predicted next x of an enemy under the current shared direction. -/
def predicted_x (dir speed dt : ℚ) (e : Entity) : ℚ := e.x + dir * speed * dt

/-- An enemy whose predicted x leaves the margin-20 band triggers a reversal. -/
def out_of_bounds (dir speed dt half_width : ℚ) (e : Entity) : Prop :=
  predicted_x dir speed dt e > half_width - 20 ∨
  predicted_x dir speed dt e < -half_width + 20

instance (dir speed dt half_width : ℚ) (e : Entity) :
    Decidable (out_of_bounds dir speed dt half_width e) := by
  unfold out_of_bounds; infer_instance

/-- The scan-with-break of `enemy_movement` returns a step-down exactly when
some enemy's predicted x leaves the band, and then the direction comes back
negated once. -/
theorem enemy_bounds_check_spec (dir speed dt half_width : ℚ) (es : List Entity) :
    enemy_bounds_check dir speed dt half_width es =
      if ∃ e ∈ es, out_of_bounds dir speed dt half_width e then (true, -dir)
      else (false, dir) := by
  induction es with
  | nil => simp [enemy_bounds_check]
  | cons e rest ih =>
    have hcond : ((decide (e.x + dir * speed * dt > half_width - 20) ||
        decide (e.x + dir * speed * dt < -half_width + 20)) = true) ↔
        out_of_bounds dir speed dt half_width e := by
      simp [out_of_bounds, predicted_x]
    by_cases h : out_of_bounds dir speed dt half_width e
    · rw [if_pos ⟨e, List.mem_cons_self e rest, h⟩]
      simp only [enemy_bounds_check]
      rw [if_pos (hcond.mpr h)]
    · have step : enemy_bounds_check dir speed dt half_width (e :: rest) =
          enemy_bounds_check dir speed dt half_width rest := by
        simp only [enemy_bounds_check]
        rw [if_neg (fun hb => h (hcond.mp hb))]
      rw [step, ih]
      by_cases h2 : ∃ a ∈ rest, out_of_bounds dir speed dt half_width a
      · obtain ⟨a, ha, hoob⟩ := h2
        rw [if_pos ⟨a, ha, hoob⟩, if_pos ⟨a, List.mem_cons_of_mem _ ha, hoob⟩]
      · rw [if_neg h2, if_neg ?_]
        rintro ⟨a, ha, hoob⟩
        rcases List.mem_cons.mp ha with rfl | ha'
        · exact h hoob
        · exact h2 ⟨a, ha', hoob⟩

/-- Case analysis of one `enemy_movement` pass: a predicted violation flips
the shared direction once and steps the whole wave down with no horizontal
movement; otherwise the wave advances horizontally and keeps its height. -/
theorem enemy_movement_cases (half_width : ℚ) (i : FrameInput) (s : GameState) :
    ((∃ e ∈ s.enemies, out_of_bounds s.direction s.enemy_speed i.dt half_width e) →
      (enemy_movement half_width i s).direction = -s.direction ∧
      (enemy_movement half_width i s).enemies =
        s.enemies.map (fun e => { e with y := e.y - 20 })) ∧
    ((¬ ∃ e ∈ s.enemies, out_of_bounds s.direction s.enemy_speed i.dt half_width e) →
      (enemy_movement half_width i s).direction = s.direction ∧
      (enemy_movement half_width i s).enemies =
        s.enemies.map (fun e => { e with x := e.x + s.direction * s.enemy_speed * i.dt })) := by
  constructor <;> intro h <;>
    simp [enemy_movement, enemy_bounds_check_spec, h, ENEMY_STEP_DOWN]

/-! ### Movement and firing systems ignore the game-over flag -/

/-- C2 amended: the movement and firing systems are not gated on the
terminal state.  Player movement, player-projectile movement/despawn,
projectile spawning, enemy formation movement, enemy projectile spawning and
enemy-projectile movement/despawn act identically whether or not the
game-over flag is set; only `enemy_player_collision` and the two controllers
consult the flag. -/
theorem c2_systems_ignore_game_over (half_width : ℚ) (i : FrameInput) (s : GameState) :
    (player_movement half_width i { s with game_over := true }).players =
      (player_movement half_width i { s with game_over := false }).players ∧
    (bullet_movement i { s with game_over := true }).bullets =
      (bullet_movement i { s with game_over := false }).bullets ∧
    (fire_bullet i { s with game_over := true }).bullets =
      (fire_bullet i { s with game_over := false }).bullets ∧
    (enemy_movement half_width i { s with game_over := true }).enemies =
      (enemy_movement half_width i { s with game_over := false }).enemies ∧
    (enemy_fire_bullet i { s with game_over := true }).enemy_bullets =
      (enemy_fire_bullet i { s with game_over := false }).enemy_bullets ∧
    (enemy_bullet_movement i { s with game_over := true }).enemy_bullets =
      (enemy_bullet_movement i { s with game_over := false }).enemy_bullets := by
  refine ⟨rfl, rfl, ?_, rfl, ?_, rfl⟩
  · simp only [fire_bullet]
    split
    · split <;> rfl
    · rfl
  · simp only [enemy_fire_bullet]
    split
    · split <;> rfl
    · rfl

/-! ### Double resolution of one enemy (deferred despawns) -/

/-- Two player projectiles overlapping one enemy, score 3900. -/
def c10_state : GameState :=
  { players := [], enemies := [⟨1, 0, 0⟩], bullets := [⟨2, 0, 0⟩, ⟨3, 5, 5⟩],
    enemy_bullets := [], direction := 1, game_over := false, score := 3900,
    lives := 3, level := 1, enemy_speed := 100, shoot_elapsed := 0,
    enemy_shoot_elapsed := 0, next_id := 4 }

/-- C10: because despawns are deferred until after the collision pass, in a
state where two live player projectiles both overlap the same single live
enemy, one `bullet_enemy_collision` pass despawns all three entities but
increases Score by 200 (100 per projectile), so the frame-boundary value of
Score steps from 3900 to 4100, over the 4000 threshold, without the
post-frame Score ever equalling it. -/
theorem c10_double_resolution :
    hits_enemy ⟨2, 0, 0⟩ ⟨1, 0, 0⟩ = true ∧
    hits_enemy ⟨3, 5, 5⟩ ⟨1, 0, 0⟩ = true ∧
    (bullet_enemy_collision c10_state).bullets = [] ∧
    (bullet_enemy_collision c10_state).enemies = [] ∧
    (bullet_enemy_collision c10_state).score = c10_state.score + 200 ∧
    c10_state.score < 4000 ∧ 4000 < (bullet_enemy_collision c10_state).score ∧
    (bullet_enemy_collision c10_state).score ≠ 4000 := by
  refine ⟨?_, ?_, ?_, ?_, ?_, ?_, ?_, ?_⟩ <;> with_unfolding_all decide

/-! ### Restart controller -/

/-- C6: when the restart input R is just pressed while the game-over flag is
set (in particular while Lost), `restart_game` resets Score to 0, Lives to
3, Level to 1, EnemyAdvanceSpeed to the base value, clears the flag,
despawns every projectile, respawns the player at the home position and
spawns the fixed 5×8 level-1 wave. -/
theorem c6_restart_resets (i : FrameInput) (s : GameState)
    (hgo : s.game_over = true) (hr : i.keyR = true) :
    (restart_game i s).score = 0 ∧
    (restart_game i s).lives = 3 ∧
    (restart_game i s).level = 1 ∧
    (restart_game i s).enemy_speed = ENEMY_SPEED ∧
    (restart_game i s).game_over = false ∧
    (restart_game i s).bullets = [] ∧
    (restart_game i s).enemy_bullets = [] ∧
    (restart_game i s).players = [spawn_player_entity s.next_id] ∧
    (restart_game i s).enemies = spawn_enemies_list (s.next_id + 1) ∧
    (restart_game i s).enemies.length = 40 ∧
    ∀ e ∈ (restart_game i s).enemies, ∃ row < 5, ∃ col < 8,
      e.x = -210 + 60 * (col : ℚ) ∧ e.y = 100 + 40 * (row : ℚ) := by
  have hre : restart_game i s = { s with
      players := [spawn_player_entity s.next_id],
      enemies := spawn_enemies_list (s.next_id + 1),
      bullets := [], enemy_bullets := [], score := 0, lives := 3, level := 1,
      game_over := false, enemy_speed := ENEMY_SPEED, next_id := s.next_id + 41 } := by
    simp [restart_game, hgo, hr]
  rw [hre]
  refine ⟨rfl, rfl, rfl, rfl, rfl, rfl, rfl, rfl, rfl, ?_, ?_⟩
  · simp [spawn_enemies_list, List.range_succ]
  · intro e he
    simp only [spawn_enemies_list, List.mem_flatten, List.mem_map] at he
    obtain ⟨l, ⟨row, hrow, rfl⟩, hel⟩ := he
    simp only [List.mem_map] at hel
    obtain ⟨col, hcol, rfl⟩ := hel
    refine ⟨row, by simpa using hrow, col, by simpa using hcol, ?_, ?_⟩
    · show (-(8 / 2 : ℚ) * 60 + 60 / 2 + (col : ℚ) * 60) = -210 + 60 * (col : ℚ)
      ring
    · show (100 + (row : ℚ) * 40) = 100 + 40 * (row : ℚ)
      ring

/-! ### Characterising the collision pass -/

/-- The first enemy in query order whose box contains the bullet — the inner
loop of `bullet_enemy_collision` breaks at exactly this enemy. -/
def first_hit (enemies : List Entity) (b : Entity) : Option Entity :=
  enemies.find? (hits_enemy b)

/-- The player projectiles that resolve against some enemy this pass. -/
def resolved (enemies bullets : List Entity) : List Entity :=
  bullets.filter (fun b => (first_hit enemies b).isSome)

theorem bec_loop_bullets (es bs : List Entity) (acc : BecAcc) :
    (bec_loop es bs acc).despawned_bullets =
      acc.despawned_bullets ++ (resolved es bs).map Entity.id := by
  induction bs generalizing acc with
  | nil => simp [bec_loop, resolved]
  | cons b bs ih =>
    cases hfb : es.find? (hits_enemy b) with
    | some e =>
      simp [bec_loop, hfb, ih, resolved, first_hit, List.filter_cons]
    | none =>
      simp [bec_loop, hfb, ih, resolved, first_hit, List.filter_cons]

theorem bec_loop_enemies (es bs : List Entity) (acc : BecAcc) :
    (bec_loop es bs acc).despawned_enemies =
      acc.despawned_enemies ++ bs.filterMap (fun b => (first_hit es b).map Entity.id) := by
  induction bs generalizing acc with
  | nil => simp [bec_loop]
  | cons b bs ih =>
    cases hfb : es.find? (hits_enemy b) with
    | some e => simp [bec_loop, hfb, ih, first_hit, List.filterMap_cons]
    | none => simp [bec_loop, hfb, ih, first_hit, List.filterMap_cons]

theorem bec_loop_score (es bs : List Entity) (acc : BecAcc) (h : acc.score < U32) :
    (bec_loop es bs acc).score = (acc.score + 100 * (resolved es bs).length) % U32 := by
  induction bs generalizing acc with
  | nil => simp [bec_loop, resolved, Nat.mod_eq_of_lt h]
  | cons b bs ih =>
    cases hfb : es.find? (hits_enemy b) with
    | some e =>
      rw [show (resolved es (b :: bs)).length = (resolved es bs).length + 1 by
        simp [resolved, first_hit, List.filter_cons, hfb]]
      have hlt : (acc.score + 100) % U32 < U32 := Nat.mod_lt _ (by norm_num [U32])
      simp only [bec_loop, hfb]
      rw [ih _ hlt]
      show ((acc.score + 100) % U32 + 100 * (resolved es bs).length) % U32 = _
      rw [Nat.mod_add_mod]
      congr 1
      ring
    | none =>
      rw [show (resolved es (b :: bs)).length = (resolved es bs).length by
        simp [resolved, first_hit, List.filter_cons, hfb]]
      simp only [bec_loop, hfb]
      exact ih _ h

theorem bec_loop_game_over_mono (es bs : List Entity) (acc : BecAcc)
    (h : acc.game_over = true) : (bec_loop es bs acc).game_over = true := by
  induction bs generalizing acc with
  | nil => exact h
  | cons b bs ih =>
    cases hfb : es.find? (hits_enemy b) with
    | some e => simp only [bec_loop, hfb]; exact ih _ (by simp [h])
    | none => simp only [bec_loop, hfb]; exact ih _ h

theorem bec_loop_game_over_hit (es bs : List Entity) (acc : BecAcc) (h : acc.score < U32)
    (j : ℕ) (hj1 : 1 ≤ j) (hj2 : j ≤ (resolved es bs).length)
    (hjs : (acc.score + 100 * j) % U32 = 4000) :
    (bec_loop es bs acc).game_over = true := by
  induction bs generalizing acc j with
  | nil =>
    simp [resolved] at hj2
    omega
  | cons b bs ih =>
    cases hfb : es.find? (hits_enemy b) with
    | none =>
      rw [show (resolved es (b :: bs)).length = (resolved es bs).length by
        simp [resolved, first_hit, List.filter_cons, hfb]] at hj2
      simp only [bec_loop, hfb]
      exact ih _ h j hj1 hj2 hjs
    | some e =>
      simp only [bec_loop, hfb]
      rcases Nat.eq_or_lt_of_le hj1 with hj | hj
      · apply bec_loop_game_over_mono
        have : (acc.score + 100) % U32 = 4000 := by
          rw [← hjs, ← hj]
        simp [this]
      · rw [show (resolved es (b :: bs)).length = (resolved es bs).length + 1 by
          simp [resolved, first_hit, List.filter_cons, hfb]] at hj2
        refine ih _ (Nat.mod_lt _ (by norm_num [U32])) (j - 1) (by omega) (by omega) ?_
        show ((acc.score + 100) % U32 + 100 * (j - 1)) % U32 = 4000
        rw [Nat.mod_add_mod, ← hjs]
        congr 1
        omega

/-- C8: a collision pass adds exactly 100 to Score for each resolving
player projectile, and whenever the running Score reaches exactly 4000 at
one of those increments the game-over flag (Won) is set in that same pass. -/
theorem c8_score_and_win (s : GameState) (hs : s.score < U32) :
    (bullet_enemy_collision s).score =
      (s.score + 100 * (resolved s.enemies s.bullets).length) % U32 ∧
    (∀ j, 1 ≤ j → j ≤ (resolved s.enemies s.bullets).length →
      (s.score + 100 * j) % U32 = 4000 →
      (bullet_enemy_collision s).game_over = true) := by
  constructor
  · show (bec_loop s.enemies s.bullets ⟨[], [], s.score, s.game_over⟩).score = _
    exact bec_loop_score _ _ _ hs
  · intro j hj1 hj2 hjs
    show (bec_loop s.enemies s.bullets ⟨[], [], s.score, s.game_over⟩).game_over = true
    exact bec_loop_game_over_hit _ _ _ hs j hj1 hj2 hjs

/-- C3: first-matching-target-wins.  For every live player projectile, if
the first enemy in query order with an overlapping box exists then that
projectile and that enemy are both despawned and no other enemy is removed
on behalf of that projectile (every removed enemy is the first hit of some
projectile); a projectile with no overlapping enemy survives; and Score
grows by exactly 100 per resolving projectile. -/
theorem c3_first_match_wins (s : GameState) (hs : s.score < U32)
    (hb : (s.bullets.map Entity.id).Nodup)
    (he : (s.enemies.map Entity.id).Nodup) :
    (∀ b ∈ s.bullets, ∀ e, first_hit s.enemies b = some e →
        e ∈ s.enemies ∧
        b.id ∉ (bullet_enemy_collision s).bullets.map Entity.id ∧
        e.id ∉ (bullet_enemy_collision s).enemies.map Entity.id) ∧
    (∀ b ∈ s.bullets, first_hit s.enemies b = none →
        b ∈ (bullet_enemy_collision s).bullets) ∧
    (∀ e ∈ s.enemies, e ∉ (bullet_enemy_collision s).enemies →
        ∃ b ∈ s.bullets, first_hit s.enemies b = some e) ∧
    (bullet_enemy_collision s).score =
      (s.score + 100 * (resolved s.enemies s.bullets).length) % U32 := by
  have hB : (bec_loop s.enemies s.bullets ⟨[], [], s.score, s.game_over⟩).despawned_bullets =
      (resolved s.enemies s.bullets).map Entity.id := by
    rw [bec_loop_bullets]; rfl
  have hE : (bec_loop s.enemies s.bullets ⟨[], [], s.score, s.game_over⟩).despawned_enemies =
      s.bullets.filterMap (fun b => (first_hit s.enemies b).map Entity.id) := by
    rw [bec_loop_enemies]; rfl
  refine ⟨?_, ?_, ?_, bec_loop_score _ _ _ hs⟩
  · intro b hbmem e hfe
    refine ⟨List.mem_of_find?_eq_some hfe, ?_, ?_⟩
    · intro hmem
      simp only [bullet_enemy_collision, List.mem_map, List.mem_filter,
        decide_eq_true_eq] at hmem
      obtain ⟨x, ⟨hx1, hx2⟩, hxid⟩ := hmem
      apply hx2
      rw [hxid, hB, List.mem_map]
      exact ⟨b, List.mem_filter.mpr ⟨hbmem, by simp [resolved, hfe]⟩, rfl⟩
    · intro hmem
      simp only [bullet_enemy_collision, List.mem_map, List.mem_filter,
        decide_eq_true_eq] at hmem
      obtain ⟨x, ⟨hx1, hx2⟩, hxid⟩ := hmem
      apply hx2
      rw [hxid, hE, List.mem_filterMap]
      exact ⟨b, hbmem, by simp [hfe]⟩
  · intro b hbmem hfe
    simp only [bullet_enemy_collision, List.mem_filter, decide_eq_true_eq]
    refine ⟨hbmem, ?_⟩
    intro hmem
    rw [hB, List.mem_map] at hmem
    obtain ⟨x, hxres, hxid⟩ := hmem
    rw [resolved] at hxres
    have hx := List.mem_filter.mp hxres
    have hxb : x = b := List.inj_on_of_nodup_map hb hx.1 hbmem hxid
    rw [hxb] at hx
    simp [hfe] at hx
  · intro e hemem hegone
    by_cases hid : e.id ∈ s.bullets.filterMap (fun b => (first_hit s.enemies b).map Entity.id)
    · rw [List.mem_filterMap] at hid
      obtain ⟨b, hbmem, hmap⟩ := hid
      obtain ⟨e', hfe', hide⟩ := Option.map_eq_some'.mp hmap
      have he'mem : e' ∈ s.enemies := List.mem_of_find?_eq_some hfe'
      have : e' = e := List.inj_on_of_nodup_map he he'mem hemem hide
      exact ⟨b, hbmem, this ▸ hfe'⟩
    · exact absurd (by
        simp only [bullet_enemy_collision, List.mem_filter, decide_eq_true_eq]
        exact ⟨hemem, by rw [hE]; exact hid⟩) hegone

/-! ### The formation boundary invariant -/

/-- All live enemies sit inside the margin-20 band of the viewport. -/
def enemies_in_bounds (half_width : ℚ) (s : GameState) : Prop :=
  ∀ e ∈ s.enemies, -half_width + 20 ≤ e.x ∧ e.x ≤ half_width - 20

/-- A freshly spawned 5×8 wave is inside the band whenever the viewport is at
least 230 half-widths wide. -/
theorem spawn_enemies_in_bounds (half_width : ℚ) (hW : 230 ≤ half_width) (base : Nat) :
    ∀ e ∈ spawn_enemies_list base, -half_width + 20 ≤ e.x ∧ e.x ≤ half_width - 20 := by
  intro e he
  simp only [spawn_enemies_list, List.mem_flatten, List.mem_map] at he
  obtain ⟨l, ⟨row, hrow, rfl⟩, hel⟩ := he
  simp only [List.mem_map] at hel
  obtain ⟨col, hcol, rfl⟩ := hel
  have hc : (col : ℚ) ≤ 7 := by
    have : col ≤ 7 := by simpa using Nat.lt_succ_iff.mp (List.mem_range.mp hcol)
    exact_mod_cast this
  have hc0 : (0 : ℚ) ≤ (col : ℚ) := by positivity
  constructor
  · show -half_width + 20 ≤ -(8 / 2 : ℚ) * 60 + 60 / 2 + (col : ℚ) * 60
    nlinarith
  · show -(8 / 2 : ℚ) * 60 + 60 / 2 + (col : ℚ) * 60 ≤ half_width - 20
    nlinarith

theorem enemies_player_movement (half_width : ℚ) (i : FrameInput) (s : GameState) :
    (player_movement half_width i s).enemies = s.enemies := rfl

theorem enemies_bullet_movement (i : FrameInput) (s : GameState) :
    (bullet_movement i s).enemies = s.enemies := rfl

theorem enemies_fire_bullet (i : FrameInput) (s : GameState) :
    (fire_bullet i s).enemies = s.enemies := by
  simp only [fire_bullet]
  split
  · split <;> rfl
  · rfl

theorem enemies_check_game_over (s : GameState) :
    (check_game_over s).enemies = s.enemies := by
  simp only [check_game_over]; split <;> rfl

theorem enemies_check_win_condition (s : GameState) :
    (check_win_condition s).enemies = s.enemies := by
  simp only [check_win_condition]; split <;> rfl

theorem enemies_enemy_fire_bullet (i : FrameInput) (s : GameState) :
    (enemy_fire_bullet i s).enemies = s.enemies := by
  simp only [enemy_fire_bullet]
  split
  · split <;> rfl
  · rfl

theorem enemies_enemy_bullet_movement (i : FrameInput) (s : GameState) :
    (enemy_bullet_movement i s).enemies = s.enemies := rfl

theorem enemies_ebpc (s : GameState) :
    (enemy_bullet_player_collision s).enemies = s.enemies := by
  simp only [enemy_bullet_player_collision]
  split
  · rfl
  · split <;> rfl

theorem enemies_epc (s : GameState) :
    (enemy_player_collision s).enemies = s.enemies := by
  simp only [enemy_player_collision]
  split
  · rfl
  · split <;> rfl

/-- The collision pass only removes enemies. -/
theorem in_bounds_bec (half_width : ℚ) (s : GameState)
    (h : enemies_in_bounds half_width s) :
    enemies_in_bounds half_width (bullet_enemy_collision s) := by
  intro e he
  simp only [bullet_enemy_collision, List.mem_filter] at he
  exact h e he.1

/-- The movement system keeps every enemy inside the band: on a predicted
violation nobody moves horizontally, otherwise every enemy's checked next x
is inside the band. -/
theorem in_bounds_enemy_movement (half_width : ℚ) (i : FrameInput) (s : GameState)
    (h : enemies_in_bounds half_width s) :
    enemies_in_bounds half_width (enemy_movement half_width i s) := by
  by_cases hv : ∃ e ∈ s.enemies, out_of_bounds s.direction s.enemy_speed i.dt half_width e
  · rw [enemies_in_bounds, ((enemy_movement_cases half_width i s).1 hv).2]
    intro e he
    simp only [List.mem_map] at he
    obtain ⟨a, ha, rfl⟩ := he
    exact h a ha
  · rw [enemies_in_bounds, ((enemy_movement_cases half_width i s).2 hv).2]
    intro e he
    simp only [List.mem_map] at he
    obtain ⟨a, ha, rfl⟩ := he
    push_neg at hv
    have := hv a ha
    rw [out_of_bounds, predicted_x] at this
    push_neg at this
    refine ⟨?_, ?_⟩ <;> dsimp only
    · linarith [this.2]
    · linarith [this.1]

/-- The restart controller either leaves enemies alone or spawns the grid. -/
theorem in_bounds_restart (half_width : ℚ) (hW : 230 ≤ half_width)
    (i : FrameInput) (s : GameState) (h : enemies_in_bounds half_width s) :
    enemies_in_bounds half_width (restart_game i s) := by
  simp only [restart_game]
  split
  · exact spawn_enemies_in_bounds half_width hW _
  · exact h

theorem in_bounds_next_level (half_width : ℚ) (hW : 230 ≤ half_width)
    (i : FrameInput) (s : GameState) (h : enemies_in_bounds half_width s) :
    enemies_in_bounds half_width (next_level i s) := by
  simp only [next_level]
  split
  · exact spawn_enemies_in_bounds half_width hW _
  · exact h

/-- One whole frame preserves the band invariant. -/
theorem in_bounds_frame (half_width : ℚ) (hW : 230 ≤ half_width)
    (i : FrameInput) (s : GameState) (h : enemies_in_bounds half_width s) :
    enemies_in_bounds half_width (frame half_width i s) := by
  have h1 : enemies_in_bounds half_width (pre_restart half_width i s) := by
    unfold pre_restart
    rw [enemies_in_bounds, enemies_epc, enemies_ebpc, enemies_enemy_bullet_movement,
      enemies_enemy_fire_bullet, enemies_check_win_condition, enemies_check_game_over]
    apply in_bounds_bec
    apply in_bounds_enemy_movement
    rw [enemies_in_bounds, enemies_fire_bullet, enemies_bullet_movement,
      enemies_player_movement]
    exact h
  show enemies_in_bounds half_width
    (next_level i (restart_game i (pre_restart half_width i s)))
  exact in_bounds_next_level half_width hW _ _ (in_bounds_restart half_width hW _ _ h1)

/-- Any run from a state satisfying the invariant stays in it. -/
theorem in_bounds_run (half_width : ℚ) (hW : 230 ≤ half_width)
    (inputs : List FrameInput) (s : GameState) (h : enemies_in_bounds half_width s) :
    enemies_in_bounds half_width (run half_width s inputs) := by
  induction inputs generalizing s with
  | nil => exact h
  | cons i is ih => exact ih _ (in_bounds_frame half_width hW i s h)

/-- C5: for all frames and all live enemies, the enemy's x-position lies
within [-half_width+20, half_width-20] — an invariant of every state
reachable from the initial state under the frame-step relation, for any
fixed viewport of half-width at least 230 (the spawn grid's width plus the
margin; the Bevy default is 640). -/
theorem c5_boundary_invariant (half_width : ℚ) (hW : 230 ≤ half_width) (inputs : List FrameInput) :
    ∀ e ∈ (run half_width init_state inputs).enemies,
      -half_width + 20 ≤ e.x ∧ e.x ≤ half_width - 20 :=
  in_bounds_run half_width hW inputs init_state
    (spawn_enemies_in_bounds half_width hW 1)

/-! ### Level bookkeeping across a frame -/

theorem level_player_movement (half_width : ℚ) (i : FrameInput) (s : GameState) :
    (player_movement half_width i s).level = s.level := rfl

theorem level_bullet_movement (i : FrameInput) (s : GameState) :
    (bullet_movement i s).level = s.level := rfl

theorem level_fire_bullet (i : FrameInput) (s : GameState) :
    (fire_bullet i s).level = s.level := by
  simp only [fire_bullet]
  split
  · split <;> rfl
  · rfl

theorem level_enemy_movement (half_width : ℚ) (i : FrameInput) (s : GameState) :
    (enemy_movement half_width i s).level = s.level := rfl

theorem level_bec (s : GameState) :
    (bullet_enemy_collision s).level = s.level := rfl

theorem level_check_game_over (s : GameState) :
    (check_game_over s).level = s.level := by
  simp only [check_game_over]; split <;> rfl

theorem level_check_win_condition (s : GameState) :
    (check_win_condition s).level = s.level := by
  simp only [check_win_condition]; split <;> rfl

theorem level_enemy_fire_bullet (i : FrameInput) (s : GameState) :
    (enemy_fire_bullet i s).level = s.level := by
  simp only [enemy_fire_bullet]
  split
  · split <;> rfl
  · rfl

theorem level_enemy_bullet_movement (i : FrameInput) (s : GameState) :
    (enemy_bullet_movement i s).level = s.level := rfl

theorem level_ebpc (s : GameState) :
    (enemy_bullet_player_collision s).level = s.level := by
  simp only [enemy_bullet_player_collision]
  split
  · rfl
  · split <;> rfl

theorem level_epc (s : GameState) :
    (enemy_player_collision s).level = s.level := by
  simp only [enemy_player_collision]
  split
  · rfl
  · split <;> rfl

/-- The systems before the restart controller never change `Level`. -/
theorem level_pre_restart (half_width : ℚ) (i : FrameInput) (s : GameState) :
    (pre_restart half_width i s).level = s.level := by
  unfold pre_restart
  rw [level_epc, level_ebpc, level_enemy_bullet_movement, level_enemy_fire_bullet,
    level_check_win_condition, level_check_game_over, level_bec, level_enemy_movement,
    level_fire_bullet, level_bullet_movement, level_player_movement]

/-! ### The game-over flag when the wave is empty -/

theorem game_over_enemy_fire_bullet (i : FrameInput) (s : GameState) :
    (enemy_fire_bullet i s).game_over = s.game_over := by
  simp only [enemy_fire_bullet]
  split
  · split <;> rfl
  · rfl

theorem game_over_enemy_bullet_movement (i : FrameInput) (s : GameState) :
    (enemy_bullet_movement i s).game_over = s.game_over := rfl

theorem game_over_ebpc_mono (s : GameState) (h : s.game_over = true) :
    (enemy_bullet_player_collision s).game_over = true := by
  simp only [enemy_bullet_player_collision]
  split <;> try split
  all_goals first | rfl | exact h

theorem game_over_epc_mono (s : GameState) (h : s.game_over = true) :
    (enemy_player_collision s).game_over = true := by
  simp only [enemy_player_collision]
  split <;> try split
  all_goals first | rfl | exact h

/-- After `check_win_condition`, an empty wave forces the game-over flag. -/
theorem check_win_empty (s : GameState) (h : (check_win_condition s).enemies = []) :
    (check_win_condition s).game_over = true := by
  rw [enemies_check_win_condition] at h
  simp only [check_win_condition]
  split
  · rfl
  · rename_i hcond
    simp only [h, List.isEmpty_nil, Bool.true_and, Bool.not_eq_true'] at hcond
    simpa using hcond

/-- If the wave is empty when `next_level` would read it, the game-over flag
is set at that moment: within one frame, an empty wave at the controller
implies `check_win_condition` already saw it empty (no later system spawns
enemies except a restart, which spawns a full wave). -/
theorem pre_next_level_empty_game_over (half_width : ℚ) (i : FrameInput) (s : GameState)
    (h : (pre_next_level half_width i s).enemies = []) :
    (pre_next_level half_width i s).game_over = true ∧
    (pre_next_level half_width i s).level = s.level := by
  have hgrid : ∀ b : Nat, spawn_enemies_list b ≠ [] := by
    intro b hb
    have := congrArg List.length hb
    simp [spawn_enemies_list, List.range_succ] at this
  rw [pre_next_level] at h ⊢
  rcases hres : (pre_restart half_width i s).game_over && i.keyR with _ | _
  · -- restart did not fire
    have hr : restart_game i (pre_restart half_width i s) = pre_restart half_width i s := by
      simp [restart_game, hres]
    rw [hr] at h ⊢
    unfold pre_restart at h ⊢
    rw [enemies_epc, enemies_ebpc, enemies_enemy_bullet_movement,
      enemies_enemy_fire_bullet] at h
    constructor
    · apply game_over_epc_mono
      apply game_over_ebpc_mono
      rw [game_over_enemy_bullet_movement, game_over_enemy_fire_bullet]
      exact check_win_empty _ h
    · exact level_pre_restart half_width i s
  · -- restart fired: it spawns a full wave, contradicting emptiness
    exfalso
    have : restart_game i (pre_restart half_width i s) =
        { pre_restart half_width i s with
          players := [spawn_player_entity (pre_restart half_width i s).next_id],
          enemies := spawn_enemies_list ((pre_restart half_width i s).next_id + 1),
          bullets := [], enemy_bullets := [], score := 0, lives := 3, level := 1,
          game_over := false, enemy_speed := ENEMY_SPEED,
          next_id := (pre_restart half_width i s).next_id + 41 } := by
      simp only [restart_game, hres]
      rfl
    rw [this] at h
    exact hgrid _ h

/-- C7: the level advance happens exactly on the advance input N while the
enemy set is empty, a situation in which the game-over flag is necessarily
already set (Won = flag set with an empty wave); it then despawns remaining
projectiles and the player, increments Level by exactly one (modulo u32),
raises EnemyAdvanceSpeed by the fixed increment 50, respawns the player and
spawns the next 5×8 wave, and clears the flag; in every other situation
`next_level` leaves Level untouched, and of the remaining systems only the
restart controller writes Level (resetting it to 1). -/
theorem c7_level_advance (half_width : ℚ) (i : FrameInput) (s : GameState) :
    (((pre_next_level half_width i s).enemies = [] ∧ i.keyN = true) →
       (pre_next_level half_width i s).game_over = true ∧
       (pre_next_level half_width i s).level = s.level ∧
       (frame half_width i s).level = (s.level + 1) % U32 ∧
       (s.level + 1 < U32 → (frame half_width i s).level = s.level + 1) ∧
       (frame half_width i s).enemy_speed =
         (pre_next_level half_width i s).enemy_speed + 50 ∧
       (frame half_width i s).game_over = false ∧
       (frame half_width i s).players =
         [spawn_player_entity (pre_next_level half_width i s).next_id] ∧
       (frame half_width i s).enemies =
         spawn_enemies_list ((pre_next_level half_width i s).next_id + 1) ∧
       (frame half_width i s).bullets = [] ∧
       (frame half_width i s).enemy_bullets = []) ∧
    (¬((pre_next_level half_width i s).enemies = [] ∧ i.keyN = true) →
       (frame half_width i s).level = (pre_next_level half_width i s).level ∧
       ((pre_next_level half_width i s).level = s.level ∨
        (pre_next_level half_width i s).level = 1)) := by
  constructor
  · rintro ⟨hemp, hN⟩
    obtain ⟨hgo, hlev⟩ := pre_next_level_empty_game_over half_width i s hemp
    have hframe : frame half_width i s =
        { pre_next_level half_width i s with
          players := [spawn_player_entity (pre_next_level half_width i s).next_id],
          enemies := spawn_enemies_list ((pre_next_level half_width i s).next_id + 1),
          bullets := [], enemy_bullets := [],
          level := ((pre_next_level half_width i s).level + 1) % U32,
          enemy_speed := (pre_next_level half_width i s).enemy_speed + 50,
          game_over := false,
          next_id := (pre_next_level half_width i s).next_id + 41 } := by
      show next_level i (pre_next_level half_width i s) = _
      simp [next_level, hemp, hN]
    rw [hframe]
    refine ⟨hgo, hlev, by rw [hlev], ?_, rfl, rfl, rfl, rfl, rfl, rfl⟩
    intro hlt
    show ((pre_next_level half_width i s).level + 1) % U32 = s.level + 1
    rw [hlev]
    exact Nat.mod_eq_of_lt hlt
  · intro hng
    have hid : frame half_width i s = pre_next_level half_width i s := by
      show next_level i (pre_next_level half_width i s) = _
      simp only [next_level]
      rw [if_neg]
      intro hcond
      rw [Bool.and_eq_true, List.isEmpty_iff] at hcond
      exact hng ⟨hcond.1, hcond.2⟩
    refine ⟨by rw [hid], ?_⟩
    rw [pre_next_level]
    simp only [restart_game]
    split
    · right; rfl
    · left; exact level_pre_restart half_width i s

/-! ### The lives ledger without the level-advance input -/

/-- At most one player, at most three lives, and a live player implies at
least one life — the invariant the unguarded decrement relies on. -/
def lives_ledger (s : GameState) : Prop :=
  s.players.length ≤ 1 ∧ s.lives ≤ 3 ∧ (s.players ≠ [] → 1 ≤ s.lives)

theorem u32_pred (n : Nat) (h1 : 1 ≤ n) (h2 : n ≤ 3) :
    (n + (U32 - 1)) % U32 = n - 1 := by
  rw [U32] at *
  omega

theorem ebpc_hits_lengths (ps bs : List Entity) :
    (ebpc_hits ps bs).1.length = (ebpc_hits ps bs).2.length := by
  induction bs with
  | nil => rfl
  | cons b bs ih =>
    simp only [ebpc_hits]
    cases ps.find? (hits_player b) with
    | some p => simpa using ih
    | none => exact ih

theorem ebpc_hits_mem (ps bs : List Entity) :
    ∀ x ∈ (ebpc_hits ps bs).2, ∃ p ∈ ps, p.id = x := by
  induction bs with
  | nil => simp [ebpc_hits]
  | cons b bs ih =>
    simp only [ebpc_hits]
    cases hf : ps.find? (hits_player b) with
    | some p =>
      intro x hx
      rcases List.mem_cons.mp hx with rfl | hx'
      · exact ⟨p, List.mem_of_find?_eq_some hf, rfl⟩
      · exact ih x hx'
    | none => exact ih

/-- When some enemy bullet hit, the (at most one) player is filtered out. -/
theorem ebpc_filter_empty (ps bs : List Entity) (hlen : ps.length ≤ 1)
    (hne : (ebpc_hits ps bs).1 ≠ []) :
    ps.filter (fun p => decide (p.id ∉ (ebpc_hits ps bs).2)) = [] := by
  have hsnd : (ebpc_hits ps bs).2 ≠ [] := by
    intro hempty
    apply hne
    have := ebpc_hits_lengths ps bs
    rw [hempty] at this
    simpa using List.length_eq_zero.mp (by simpa using this)
  obtain ⟨y, t, hyt⟩ := List.exists_cons_of_ne_nil hsnd
  have hy : ∃ p ∈ ps, p.id = y := ebpc_hits_mem ps bs y (by rw [hyt]; exact List.mem_cons_self y t)
  obtain ⟨p0, hp0, hp0id⟩ := hy
  have hps : ps = [p0] := by
    cases ps with
    | nil => cases hp0
    | cons a rest =>
      cases rest with
      | nil => simpa using (List.mem_singleton.mp hp0).symm
      | cons c d => simp at hlen
  rw [hps]
  have : p0.id ∈ (ebpc_hits ps bs).2 := by
    rw [hyt, hp0id]
    exact List.mem_cons_self y t
  rw [hps] at this
  simp [List.filter, this]

/-- One collision pass of enemy bullets against the player preserves the
lives ledger. -/
theorem ledger_ebpc (s : GameState) (h : lives_ledger s) :
    lives_ledger (enemy_bullet_player_collision s) := by
  obtain ⟨hlen, hl3, hlp⟩ := h
  simp only [enemy_bullet_player_collision]
  split
  · -- no collision detected
    refine ⟨le_trans (List.length_filter_le _ _) hlen, hl3, ?_⟩
    intro hne
    apply hlp
    intro hnil
    rw [hnil] at hne
    simp at hne
  · rename_i hfull
    have hne : (ebpc_hits s.players s.enemy_bullets).1 ≠ [] := by
      simpa [List.isEmpty_iff] using hfull
    have hfe := ebpc_filter_empty s.players s.enemy_bullets hlen hne
    have hsne : s.players ≠ [] := by
      intro hnil
      apply hne
      rw [hnil]
      induction s.enemy_bullets with
      | nil => rfl
      | cons b bs ih => simpa [ebpc_hits] using ih
    have hl1 : 1 ≤ s.lives := hlp hsne
    split
    · -- lives > 1: decrement and respawn
      refine ⟨?_, ?_, ?_⟩
      · show (List.filter (fun p => decide (p.id ∉ (ebpc_hits s.players s.enemy_bullets).2))
            s.players ++ [spawn_player_entity s.next_id]).length ≤ 1
        rw [hfe]
        rfl
      · show (s.lives + (U32 - 1)) % U32 ≤ 3
        rw [u32_pred s.lives hl1 hl3]
        omega
      · intro _
        show 1 ≤ (s.lives + (U32 - 1)) % U32
        rw [u32_pred s.lives hl1 hl3]
        omega
    · -- lives = 1: decrement to 0, player stays despawned
      refine ⟨?_, ?_, ?_⟩
      · show (List.filter (fun p => decide (p.id ∉ (ebpc_hits s.players s.enemy_bullets).2))
            s.players).length ≤ 1
        rw [hfe]
        exact Nat.zero_le 1
      · show (s.lives + (U32 - 1)) % U32 ≤ 3
        rw [u32_pred s.lives hl1 hl3]
        omega
      · intro hcontra
        exact absurd hfe hcontra

theorem ledger_player_movement (half_width : ℚ) (i : FrameInput) (s : GameState)
    (h : lives_ledger s) : lives_ledger (player_movement half_width i s) := by
  obtain ⟨hlen, hl3, hlp⟩ := h
  refine ⟨?_, hl3, ?_⟩
  · show (s.players.map _).length ≤ 1
    simpa using hlen
  intro hne
  apply hlp
  intro hnil
  rw [player_movement, hnil] at hne
  exact hne rfl

theorem players_bullet_movement (i : FrameInput) (s : GameState) :
    (bullet_movement i s).players = s.players := rfl

theorem lives_bullet_movement (i : FrameInput) (s : GameState) :
    (bullet_movement i s).lives = s.lives := rfl

theorem players_fire_bullet (i : FrameInput) (s : GameState) :
    (fire_bullet i s).players = s.players := by
  simp only [fire_bullet]
  split
  · split <;> rfl
  · rfl

theorem lives_fire_bullet (i : FrameInput) (s : GameState) :
    (fire_bullet i s).lives = s.lives := by
  simp only [fire_bullet]
  split
  · split <;> rfl
  · rfl

theorem players_enemy_movement (half_width : ℚ) (i : FrameInput) (s : GameState) :
    (enemy_movement half_width i s).players = s.players := rfl

theorem lives_enemy_movement (half_width : ℚ) (i : FrameInput) (s : GameState) :
    (enemy_movement half_width i s).lives = s.lives := rfl

theorem players_bec (s : GameState) :
    (bullet_enemy_collision s).players = s.players := rfl

theorem lives_bec (s : GameState) :
    (bullet_enemy_collision s).lives = s.lives := rfl

theorem players_check_game_over (s : GameState) :
    (check_game_over s).players = s.players := by
  simp only [check_game_over]; split <;> rfl

theorem lives_check_game_over (s : GameState) :
    (check_game_over s).lives = s.lives := by
  simp only [check_game_over]; split <;> rfl

theorem players_check_win_condition (s : GameState) :
    (check_win_condition s).players = s.players := by
  simp only [check_win_condition]; split <;> rfl

theorem lives_check_win_condition (s : GameState) :
    (check_win_condition s).lives = s.lives := by
  simp only [check_win_condition]; split <;> rfl

theorem players_enemy_fire_bullet (i : FrameInput) (s : GameState) :
    (enemy_fire_bullet i s).players = s.players := by
  simp only [enemy_fire_bullet]
  split
  · split <;> rfl
  · rfl

theorem lives_enemy_fire_bullet (i : FrameInput) (s : GameState) :
    (enemy_fire_bullet i s).lives = s.lives := by
  simp only [enemy_fire_bullet]
  split
  · split <;> rfl
  · rfl

theorem players_enemy_bullet_movement (i : FrameInput) (s : GameState) :
    (enemy_bullet_movement i s).players = s.players := rfl

theorem lives_enemy_bullet_movement (i : FrameInput) (s : GameState) :
    (enemy_bullet_movement i s).lives = s.lives := rfl

theorem players_epc (s : GameState) :
    (enemy_player_collision s).players = s.players := by
  simp only [enemy_player_collision]
  split
  · rfl
  · split <;> rfl

theorem lives_epc (s : GameState) :
    (enemy_player_collision s).lives = s.lives := by
  simp only [enemy_player_collision]
  split
  · rfl
  · split <;> rfl

theorem ledger_of_eq (s t : GameState) (hp : t.players = s.players)
    (hl : t.lives = s.lives) (h : lives_ledger s) : lives_ledger t := by
  obtain ⟨h1, h2, h3⟩ := h
  exact ⟨hp ▸ h1, hl ▸ h2, hp ▸ hl ▸ h3⟩

theorem ledger_restart (i : FrameInput) (s : GameState) (h : lives_ledger s) :
    lives_ledger (restart_game i s) := by
  simp only [restart_game]
  split
  · exact ⟨by rfl, by norm_num, fun _ => by norm_num⟩
  · exact h

theorem next_level_of_no_keyN (i : FrameInput) (s : GameState) (hN : i.keyN = false) :
    next_level i s = s := by
  simp [next_level, hN]

/-- A frame with the level-advance key up preserves the lives ledger. -/
theorem ledger_frame (half_width : ℚ) (i : FrameInput) (s : GameState)
    (hN : i.keyN = false) (h : lives_ledger s) :
    lives_ledger (frame half_width i s) := by
  show lives_ledger (next_level i (restart_game i (pre_restart half_width i s)))
  rw [next_level_of_no_keyN i _ hN]
  apply ledger_restart
  unfold pre_restart
  apply ledger_of_eq _ _ (players_epc _) (lives_epc _)
  apply ledger_ebpc
  apply ledger_of_eq _ _ (players_enemy_bullet_movement _ _) (lives_enemy_bullet_movement _ _)
  apply ledger_of_eq _ _ (players_enemy_fire_bullet _ _) (lives_enemy_fire_bullet _ _)
  apply ledger_of_eq _ _ (players_check_win_condition _) (lives_check_win_condition _)
  apply ledger_of_eq _ _ (players_check_game_over _) (lives_check_game_over _)
  apply ledger_of_eq _ _ (players_bec _) (lives_bec _)
  apply ledger_of_eq _ _ (players_enemy_movement _ _ _) (lives_enemy_movement _ _ _)
  apply ledger_of_eq _ _ (players_fire_bullet _ _) (lives_fire_bullet _ _)
  apply ledger_of_eq _ _ (players_bullet_movement _ _) (lives_bullet_movement _ _)
  exact ledger_player_movement half_width i s h

theorem ledger_run (half_width : ℚ) (inputs : List FrameInput) (s : GameState)
    (hN : ∀ i ∈ inputs, i.keyN = false) (h : lives_ledger s) :
    lives_ledger (run half_width s inputs) := by
  induction inputs generalizing s with
  | nil => exact h
  | cons i is ih =>
    exact ih _ (fun j hj => hN j (List.mem_cons_of_mem i hj))
      (ledger_frame half_width i s (hN i (List.mem_cons_self i is)) h)

/-- C9 amended: in every state reachable without the level-advance input N,
a live player entity exists only when Lives ≥ 1, so the unguarded u32
decrement in the hit-resolution branch cannot wrap.  (With N available the
invariant fails: see the counterexample.) -/
theorem c9_no_advance_invariant (half_width : ℚ) (inputs : List FrameInput)
    (hN : ∀ i ∈ inputs, i.keyN = false) :
    (run half_width init_state inputs).players ≠ [] →
      1 ≤ (run half_width init_state inputs).lives := by
  have := ledger_run half_width inputs init_state hN
    ⟨by rfl, by show (3 : Nat) ≤ 3; norm_num, fun _ => by show (1 : Nat) ≤ 3; norm_num⟩
  exact this.2.2

/-! ### Witness states -/

/-- A minimal world used to instantiate witnesses. -/
def tiny_state : GameState :=
  { players := [], enemies := [], bullets := [], enemy_bullets := [],
    direction := 1, game_over := false, score := 0, lives := 3, level := 1,
    enemy_speed := 100, shoot_elapsed := 0, enemy_shoot_elapsed := 0,
    next_id := 10 }

/-- A quiet frame input (small delta, no keys). -/
def idle_input : FrameInput := ⟨1 / 25, false, false, false, false, false, 0⟩

/-- One enemy predicted to cross the right margin next frame. -/
def c1_hit_state : GameState := { tiny_state with enemies := [⟨1, 618, 100⟩] }

/-- One enemy far from both margins. -/
def c1_clear_state : GameState := { tiny_state with enemies := [⟨1, 0, 100⟩] }

/-- One player projectile inside one enemy's box, at score 3900. -/
def single_hit_state : GameState :=
  { tiny_state with enemies := [⟨1, 0, 0⟩], bullets := [⟨2, 0, 0⟩], score := 3900 }

/-- C1: each frame, if for any live enemy the predicted next x under the
current shared direction and current EnemyAdvanceSpeed would exceed
half_width minus the margin 20 on either side, the shared direction is
negated once for the entire wave and every enemy's y decreases by the fixed
step `ENEMY_STEP_DOWN` with no horizontal displacement that frame; otherwise
every enemy's x advances by direction·speed·dt and its y is unchanged. -/
theorem c1_formation_reversal (half_width : ℚ) (i : FrameInput) (s : GameState) :
    ((∃ e ∈ s.enemies, out_of_bounds s.direction s.enemy_speed i.dt half_width e) →
      (enemy_movement half_width i s).direction = -s.direction ∧
      (enemy_movement half_width i s).enemies =
        s.enemies.map (fun e => { e with y := e.y - ENEMY_STEP_DOWN })) ∧
    ((¬ ∃ e ∈ s.enemies, out_of_bounds s.direction s.enemy_speed i.dt half_width e) →
      (enemy_movement half_width i s).direction = s.direction ∧
      (enemy_movement half_width i s).enemies =
        s.enemies.map (fun e => { e with x := e.x + s.direction * s.enemy_speed * i.dt })) :=
  enemy_movement_cases half_width i s

/-- Witness for C1 at two concrete one-enemy states under a 640 half-width:
one trips the reversal, the other moves smoothly. -/
theorem c1_formation_reversal_witness :
    ((∃ e ∈ c1_hit_state.enemies, out_of_bounds c1_hit_state.direction
        c1_hit_state.enemy_speed idle_input.dt 640 e) ∧
      (enemy_movement 640 idle_input c1_hit_state).direction = -c1_hit_state.direction) ∧
    ((¬ ∃ e ∈ c1_clear_state.enemies, out_of_bounds c1_clear_state.direction
        c1_clear_state.enemy_speed idle_input.dt 640 e) ∧
      (enemy_movement 640 idle_input c1_clear_state).direction = c1_clear_state.direction) := by
  constructor
  · have h : ∃ e ∈ c1_hit_state.enemies, out_of_bounds c1_hit_state.direction
        c1_hit_state.enemy_speed idle_input.dt 640 e := by
      with_unfolding_all decide
    exact ⟨h, ((c1_formation_reversal 640 idle_input c1_hit_state).1 h).1⟩
  · have h : ¬ ∃ e ∈ c1_clear_state.enemies, out_of_bounds c1_clear_state.direction
        c1_clear_state.enemy_speed idle_input.dt 640 e := by
      with_unfolding_all decide
    exact ⟨h, ((c1_formation_reversal 640 idle_input c1_clear_state).2 h).1⟩

/-- Witness for C3 at a concrete one-projectile one-enemy overlap. -/
theorem c3_first_match_wins_witness :
    (single_hit_state.score < U32 ∧
      (single_hit_state.bullets.map Entity.id).Nodup ∧
      (single_hit_state.enemies.map Entity.id).Nodup) ∧
    (bullet_enemy_collision single_hit_state).score =
      (single_hit_state.score +
        100 * (resolved single_hit_state.enemies single_hit_state.bullets).length) % U32 := by
  have h1 : single_hit_state.score < U32 := by decide
  have h2 : (single_hit_state.bullets.map Entity.id).Nodup := by decide
  have h3 : (single_hit_state.enemies.map Entity.id).Nodup := by decide
  exact ⟨⟨h1, h2, h3⟩, (c3_first_match_wins single_hit_state h1 h2 h3).2.2.2⟩

/-- Witness for C5 with the default 640 half-width and the empty run. -/
theorem c5_boundary_invariant_witness :
    (230 : ℚ) ≤ 640 ∧
    (∀ e ∈ (run 640 init_state []).enemies, -640 + 20 ≤ e.x ∧ e.x ≤ 640 - 20) := by
  have h : (230 : ℚ) ≤ 640 := by norm_num
  exact ⟨h, c5_boundary_invariant 640 h []⟩

/-- Witness input pressing R. -/
def c6_input : FrameInput := ⟨1 / 25, false, false, false, true, false, 0⟩

/-- Witness state: game over with nothing alive. -/
def c6_state : GameState := { tiny_state with game_over := true }

/-- Witness for C6 at a concrete game-over state with R pressed. -/
theorem c6_restart_resets_witness :
    (c6_state.game_over = true ∧ c6_input.keyR = true) ∧
    (restart_game c6_input c6_state).score = 0 ∧
    (restart_game c6_input c6_state).lives = 3 ∧
    (restart_game c6_input c6_state).enemies.length = 40 := by
  have h := c6_restart_resets c6_input c6_state rfl rfl
  exact ⟨⟨rfl, rfl⟩, h.1, h.2.1, h.2.2.2.2.2.2.2.2.2.1⟩

/-- Witness input pressing N. -/
def c7_input : FrameInput := ⟨1 / 25, false, false, false, false, true, 0⟩

/-- Witness for C7: from an empty-wave state, pressing N bumps the level and
returns to Playing. -/
theorem c7_level_advance_witness :
    ((pre_next_level 640 c7_input tiny_state).enemies = [] ∧ c7_input.keyN = true) ∧
    (frame 640 c7_input tiny_state).level = (tiny_state.level + 1) % U32 ∧
    (frame 640 c7_input tiny_state).game_over = false := by
  have hh : (pre_next_level 640 c7_input tiny_state).enemies = [] ∧ c7_input.keyN = true :=
    ⟨by with_unfolding_all rfl, rfl⟩
  have h := (c7_level_advance 640 c7_input tiny_state).1 hh
  exact ⟨hh, h.2.2.1, h.2.2.2.2.2.1⟩

/-- Witness for C8: the hit that takes Score from 3900 to exactly 4000 sets
the flag in the same pass. -/
theorem c8_score_and_win_witness :
    (single_hit_state.score < U32 ∧
      1 ≤ (resolved single_hit_state.enemies single_hit_state.bullets).length ∧
      (single_hit_state.score + 100 * 1) % U32 = 4000) ∧
    (bullet_enemy_collision single_hit_state).game_over = true := by
  have h1 : single_hit_state.score < U32 := by decide
  have h2 : 1 ≤ (resolved single_hit_state.enemies single_hit_state.bullets).length := by
    with_unfolding_all decide
  have h3 : (single_hit_state.score + 100 * 1) % U32 = 4000 := by decide
  exact ⟨⟨h1, h2, h3⟩, (c8_score_and_win single_hit_state h1).2 1 (le_refl 1) h2 h3⟩

/-- Witness for the amended C9 on the empty (hence N-free) input schedule. -/
theorem c9_no_advance_invariant_witness :
    (∀ i ∈ ([] : List FrameInput), i.keyN = false) ∧
    ((run 640 init_state []).players ≠ [] → 1 ≤ (run 640 init_state []).lives) := by
  have h : ∀ i ∈ ([] : List FrameInput), i.keyN = false := by simp
  exact ⟨h, c9_no_advance_invariant 640 [] h⟩
/-! ### A concrete refutation run

`next_level` checks only that the enemy query is empty and N was just
pressed; it neither consults the game-over flag nor resets `PlayerLives`.
The schedule below drives the game from its initial state to a state in
which a live player coexists with `lives = 0`, after which one further hit
makes the unguarded `lives.0 -= 1` wrap around. -/
/-- A concrete 261-frame input schedule from the initial state (window
half-width 640, the Bevy default), cut into chunks so each checkpoint is
verified separately: the player takes two enemy-bullet hits, clears the
whole 40-enemy wave while one last enemy bullet is in flight, that bullet
lands (lives 1 → 0, player despawned, game over), and N is pressed on the
last frame, so `next_level` respawns the player without touching
`PlayerLives`.  Fields: dt, left, right, space, keyR, keyN, choice. -/
def bad_chunk_1 : List FrameInput := [
  ⟨(7/25 : ℚ), false, false, false, false, false, 0⟩, ⟨(7/25 : ℚ), false, false, false, false, false, 0⟩, ⟨(7/25 : ℚ), false, false, true, false, false, 0⟩,
  ⟨(7/25 : ℚ), false, false, false, false, false, 0⟩, ⟨(7/25 : ℚ), false, false, true, false, false, 6⟩, ⟨(7/25 : ℚ), false, false, false, false, false, 0⟩,
  ⟨(7/25 : ℚ), false, false, false, false, false, 0⟩, ⟨(7/25 : ℚ), false, false, false, false, false, 0⟩, ⟨(7/25 : ℚ), false, false, false, false, false, 5⟩,
  ⟨(7/25 : ℚ), false, false, false, false, false, 0⟩, ⟨(7/25 : ℚ), false, false, false, false, false, 0⟩, ⟨(7/25 : ℚ), false, false, false, false, false, 0⟩,
  ⟨(7/25 : ℚ), false, false, false, false, false, 5⟩, ⟨(7/25 : ℚ), false, false, false, false, false, 0⟩, ⟨(7/25 : ℚ), false, false, false, false, false, 0⟩,
  ⟨(13/50 : ℚ), false, false, false, false, false, 0⟩, ⟨(13/50 : ℚ), false, false, false, false, false, 0⟩, ⟨(13/50 : ℚ), false, false, false, false, false, 5⟩,
  ⟨(13/50 : ℚ), false, false, false, false, false, 0⟩, ⟨(13/50 : ℚ), false, false, false, false, false, 0⟩
]

/-- Frames 21..40 of the schedule. -/
def bad_chunk_2 : List FrameInput := [
  ⟨(13/50 : ℚ), false, false, false, false, false, 0⟩, ⟨(13/50 : ℚ), false, false, false, false, false, 5⟩, ⟨(13/50 : ℚ), false, false, false, false, false, 0⟩,
  ⟨(13/50 : ℚ), false, false, true, false, false, 0⟩, ⟨(13/50 : ℚ), false, false, false, false, false, 0⟩, ⟨(13/50 : ℚ), false, false, false, false, false, 0⟩,
  ⟨(13/50 : ℚ), false, false, true, false, false, 4⟩, ⟨(13/50 : ℚ), false, false, false, false, false, 0⟩, ⟨(13/50 : ℚ), false, false, true, false, false, 0⟩,
  ⟨(13/50 : ℚ), false, false, false, false, false, 0⟩, ⟨(13/50 : ℚ), false, false, false, false, false, 0⟩, ⟨(13/50 : ℚ), false, false, true, false, false, 3⟩,
  ⟨(13/50 : ℚ), false, false, false, false, false, 0⟩, ⟨(13/50 : ℚ), false, false, true, false, false, 0⟩, ⟨(13/50 : ℚ), false, false, false, false, false, 0⟩,
  ⟨(13/50 : ℚ), false, false, true, false, false, 1⟩, ⟨(13/50 : ℚ), false, false, false, false, false, 0⟩, ⟨(13/50 : ℚ), false, false, false, false, false, 0⟩,
  ⟨(3/10 : ℚ), false, false, false, false, false, 0⟩, ⟨(3/10 : ℚ), false, false, false, false, false, 0⟩
]

/-- Frames 41..60 of the schedule. -/
def bad_chunk_3 : List FrameInput := [
  ⟨(3/10 : ℚ), false, false, false, false, false, 0⟩, ⟨(3/10 : ℚ), false, false, false, false, false, 0⟩, ⟨(3/10 : ℚ), false, false, false, false, false, 0⟩,
  ⟨(3/10 : ℚ), false, false, false, false, false, 0⟩, ⟨(3/10 : ℚ), false, false, false, false, false, 0⟩, ⟨(7/25 : ℚ), false, false, false, false, false, 0⟩,
  ⟨(7/25 : ℚ), false, false, false, false, false, 0⟩, ⟨(7/25 : ℚ), false, false, false, false, false, 0⟩, ⟨(7/25 : ℚ), false, false, true, false, false, 0⟩,
  ⟨(7/25 : ℚ), false, false, false, false, false, 0⟩, ⟨(7/25 : ℚ), false, false, true, false, false, 0⟩, ⟨(7/25 : ℚ), false, false, false, false, false, 0⟩,
  ⟨(7/25 : ℚ), false, false, true, false, false, 0⟩, ⟨(7/25 : ℚ), false, false, false, false, false, 0⟩, ⟨(7/25 : ℚ), false, false, false, false, false, 0⟩,
  ⟨(7/25 : ℚ), false, false, true, false, false, 0⟩, ⟨(7/25 : ℚ), false, false, false, false, false, 4⟩, ⟨(7/25 : ℚ), false, false, true, false, false, 0⟩,
  ⟨(7/25 : ℚ), false, false, false, false, false, 0⟩, ⟨(7/25 : ℚ), false, false, false, false, false, 0⟩
]

/-- Frames 61..80 of the schedule. -/
def bad_chunk_4 : List FrameInput := [
  ⟨(7/25 : ℚ), false, false, false, false, false, 0⟩, ⟨(7/25 : ℚ), false, false, true, false, false, 2⟩, ⟨(7/25 : ℚ), false, false, false, false, false, 0⟩,
  ⟨(7/25 : ℚ), false, false, true, false, false, 0⟩, ⟨(7/25 : ℚ), false, false, false, false, false, 0⟩, ⟨(7/25 : ℚ), false, false, false, false, false, 8⟩,
  ⟨(7/25 : ℚ), false, false, false, false, false, 0⟩, ⟨(7/25 : ℚ), false, false, false, false, false, 0⟩, ⟨(7/25 : ℚ), false, false, false, false, false, 0⟩,
  ⟨(7/25 : ℚ), false, false, false, false, false, 8⟩, ⟨(7/25 : ℚ), false, false, false, false, false, 0⟩, ⟨(7/25 : ℚ), false, false, false, false, false, 0⟩,
  ⟨(7/25 : ℚ), false, false, false, false, false, 0⟩, ⟨(7/25 : ℚ), false, false, false, false, false, 8⟩, ⟨(13/50 : ℚ), false, false, false, false, false, 0⟩,
  ⟨(13/50 : ℚ), false, false, false, false, false, 0⟩, ⟨(13/50 : ℚ), false, false, false, false, false, 0⟩, ⟨(13/50 : ℚ), false, false, false, false, false, 0⟩,
  ⟨(13/50 : ℚ), false, false, false, false, false, 8⟩, ⟨(13/50 : ℚ), false, false, false, false, false, 0⟩
]

/-- Frames 81..100 of the schedule. -/
def bad_chunk_5 : List FrameInput := [
  ⟨(13/50 : ℚ), false, false, false, false, false, 0⟩, ⟨(13/50 : ℚ), false, false, false, false, false, 0⟩, ⟨(13/50 : ℚ), false, false, false, false, false, 0⟩,
  ⟨(13/50 : ℚ), false, false, true, false, false, 8⟩, ⟨(13/50 : ℚ), false, false, false, false, false, 0⟩, ⟨(13/50 : ℚ), false, false, true, false, false, 0⟩,
  ⟨(3/10 : ℚ), false, false, false, false, false, 0⟩, ⟨(3/10 : ℚ), false, false, true, false, false, 6⟩, ⟨(3/10 : ℚ), false, false, false, false, false, 0⟩,
  ⟨(3/10 : ℚ), false, false, true, false, false, 0⟩, ⟨(3/10 : ℚ), false, false, false, false, false, 0⟩, ⟨(3/10 : ℚ), false, false, true, false, false, 0⟩,
  ⟨(3/10 : ℚ), false, false, false, false, false, 0⟩, ⟨(3/10 : ℚ), false, false, true, false, false, 0⟩, ⟨(3/10 : ℚ), false, false, false, false, false, 0⟩,
  ⟨(3/10 : ℚ), false, false, false, false, false, 0⟩, ⟨(3/10 : ℚ), false, false, false, false, false, 0⟩, ⟨(3/10 : ℚ), false, false, false, false, false, 0⟩,
  ⟨(3/10 : ℚ), false, false, false, false, false, 0⟩, ⟨(3/10 : ℚ), false, false, false, false, false, 0⟩
]

/-- Frames 101..120 of the schedule. -/
def bad_chunk_6 : List FrameInput := [
  ⟨(3/10 : ℚ), false, false, false, false, false, 0⟩, ⟨(3/10 : ℚ), false, false, false, false, false, 0⟩, ⟨(3/10 : ℚ), false, false, false, false, false, 0⟩,
  ⟨(7/25 : ℚ), false, false, false, false, false, 0⟩, ⟨(7/25 : ℚ), false, false, false, false, false, 0⟩, ⟨(7/25 : ℚ), false, false, false, false, false, 0⟩,
  ⟨(7/25 : ℚ), false, false, false, false, false, 0⟩, ⟨(7/25 : ℚ), false, false, false, false, false, 0⟩, ⟨(7/25 : ℚ), false, false, false, false, false, 0⟩,
  ⟨(7/25 : ℚ), false, false, false, false, false, 0⟩, ⟨(7/25 : ℚ), false, false, false, false, false, 0⟩, ⟨(7/25 : ℚ), false, false, false, false, false, 0⟩,
  ⟨(7/25 : ℚ), false, false, false, false, false, 0⟩, ⟨(7/25 : ℚ), false, false, false, false, false, 0⟩, ⟨(7/25 : ℚ), false, false, false, false, false, 0⟩,
  ⟨(7/25 : ℚ), false, false, false, false, false, 0⟩, ⟨(7/25 : ℚ), false, false, false, false, false, 0⟩, ⟨(7/25 : ℚ), false, false, true, false, false, 0⟩,
  ⟨(7/25 : ℚ), false, false, false, false, false, 0⟩, ⟨(7/25 : ℚ), false, false, true, false, false, 0⟩
]

/-- Frames 121..140 of the schedule. -/
def bad_chunk_7 : List FrameInput := [
  ⟨(7/25 : ℚ), false, false, false, false, false, 9⟩, ⟨(7/25 : ℚ), false, false, true, false, false, 0⟩, ⟨(7/25 : ℚ), false, false, false, false, false, 0⟩,
  ⟨(7/25 : ℚ), false, false, false, false, false, 0⟩, ⟨(8/25 : ℚ), false, false, false, false, false, 7⟩, ⟨(8/25 : ℚ), false, false, false, false, false, 0⟩,
  ⟨(8/25 : ℚ), false, false, false, false, false, 0⟩, ⟨(8/25 : ℚ), false, false, false, false, false, 0⟩, ⟨(8/25 : ℚ), false, false, false, false, false, 7⟩,
  ⟨(8/25 : ℚ), false, false, false, false, false, 0⟩, ⟨(8/25 : ℚ), false, false, false, false, false, 0⟩, ⟨(3/10 : ℚ), false, false, false, false, false, 0⟩,
  ⟨(3/10 : ℚ), false, false, false, false, false, 7⟩, ⟨(3/10 : ℚ), false, false, false, false, false, 0⟩, ⟨(3/10 : ℚ), false, false, true, false, false, 0⟩,
  ⟨(3/10 : ℚ), false, false, false, false, false, 0⟩, ⟨(3/10 : ℚ), false, false, true, false, false, 6⟩, ⟨(3/10 : ℚ), false, false, false, false, false, 0⟩,
  ⟨(3/10 : ℚ), false, false, true, false, false, 0⟩, ⟨(3/10 : ℚ), false, false, false, false, false, 0⟩
]

/-- Frames 141..160 of the schedule. -/
def bad_chunk_8 : List FrameInput := [
  ⟨(3/10 : ℚ), false, false, true, false, false, 4⟩, ⟨(3/10 : ℚ), false, false, false, false, false, 0⟩, ⟨(3/10 : ℚ), false, false, true, false, false, 0⟩,
  ⟨(3/10 : ℚ), false, false, false, false, false, 0⟩, ⟨(3/10 : ℚ), false, false, true, false, false, 3⟩, ⟨(3/10 : ℚ), false, false, false, false, false, 0⟩,
  ⟨(3/10 : ℚ), false, false, true, false, false, 0⟩, ⟨(3/10 : ℚ), false, false, false, false, false, 0⟩, ⟨(3/10 : ℚ), false, false, true, false, false, 1⟩,
  ⟨(3/10 : ℚ), false, false, false, false, false, 0⟩, ⟨(3/10 : ℚ), false, false, false, false, false, 0⟩, ⟨(17/50 : ℚ), false, false, false, false, false, 0⟩,
  ⟨(17/50 : ℚ), false, false, false, false, false, 0⟩, ⟨(17/50 : ℚ), false, false, false, false, false, 0⟩, ⟨(17/50 : ℚ), false, false, false, false, false, 0⟩,
  ⟨(17/50 : ℚ), false, false, false, false, false, 0⟩, ⟨(17/50 : ℚ), false, false, false, false, false, 0⟩, ⟨(8/25 : ℚ), false, false, false, false, false, 0⟩,
  ⟨(8/25 : ℚ), false, false, false, false, false, 0⟩, ⟨(8/25 : ℚ), false, false, true, false, false, 0⟩
]

/-- Frames 161..180 of the schedule. -/
def bad_chunk_9 : List FrameInput := [
  ⟨(8/25 : ℚ), false, false, false, false, false, 0⟩, ⟨(8/25 : ℚ), false, false, true, false, false, 0⟩, ⟨(8/25 : ℚ), false, false, false, false, false, 0⟩,
  ⟨(8/25 : ℚ), false, false, true, false, false, 0⟩, ⟨(8/25 : ℚ), false, false, false, false, false, 0⟩, ⟨(8/25 : ℚ), false, false, true, false, false, 0⟩,
  ⟨(8/25 : ℚ), false, false, false, false, false, 0⟩, ⟨(8/25 : ℚ), false, false, true, false, false, 0⟩, ⟨(8/25 : ℚ), false, false, false, false, false, 0⟩,
  ⟨(8/25 : ℚ), false, false, true, false, false, 0⟩, ⟨(8/25 : ℚ), false, false, false, false, false, 0⟩, ⟨(8/25 : ℚ), false, false, true, false, false, 0⟩,
  ⟨(8/25 : ℚ), false, false, true, false, false, 0⟩, ⟨(8/25 : ℚ), false, false, false, false, false, 0⟩, ⟨(3/10 : ℚ), false, false, false, false, false, 0⟩,
  ⟨(8/25 : ℚ), false, false, false, false, false, 0⟩, ⟨(8/25 : ℚ), false, false, false, false, false, 0⟩, ⟨(3/10 : ℚ), false, false, false, false, false, 0⟩,
  ⟨(8/25 : ℚ), false, false, false, false, false, 0⟩, ⟨(8/25 : ℚ), false, false, false, false, false, 0⟩
]

/-- Frames 181..200 of the schedule. -/
def bad_chunk_10 : List FrameInput := [
  ⟨(8/25 : ℚ), false, false, false, false, false, 0⟩, ⟨(8/25 : ℚ), false, false, false, false, false, 0⟩, ⟨(8/25 : ℚ), false, false, false, false, false, 0⟩,
  ⟨(8/25 : ℚ), false, false, false, false, false, 0⟩, ⟨(8/25 : ℚ), false, false, false, false, false, 0⟩, ⟨(8/25 : ℚ), false, false, false, false, false, 0⟩,
  ⟨(8/25 : ℚ), false, false, false, false, false, 0⟩, ⟨(8/25 : ℚ), false, false, false, false, false, 0⟩, ⟨(8/25 : ℚ), false, false, false, false, false, 0⟩,
  ⟨(8/25 : ℚ), false, false, false, false, false, 0⟩, ⟨(8/25 : ℚ), false, false, false, false, false, 0⟩, ⟨(8/25 : ℚ), false, false, false, false, false, 0⟩,
  ⟨(8/25 : ℚ), false, false, false, false, false, 0⟩, ⟨(8/25 : ℚ), false, false, false, false, false, 0⟩, ⟨(8/25 : ℚ), false, false, false, false, false, 0⟩,
  ⟨(8/25 : ℚ), false, false, false, false, false, 0⟩, ⟨(3/10 : ℚ), false, false, false, false, false, 0⟩, ⟨(3/10 : ℚ), false, false, false, false, false, 0⟩,
  ⟨(3/10 : ℚ), false, false, false, false, false, 0⟩, ⟨(3/10 : ℚ), false, false, false, false, false, 0⟩
]

/-- Frames 201..220 of the schedule. -/
def bad_chunk_11 : List FrameInput := [
  ⟨(3/10 : ℚ), false, false, false, false, false, 0⟩, ⟨(3/10 : ℚ), false, false, false, false, false, 0⟩, ⟨(3/10 : ℚ), false, false, false, false, false, 0⟩,
  ⟨(3/10 : ℚ), false, false, false, false, false, 0⟩, ⟨(3/10 : ℚ), false, false, false, false, false, 0⟩, ⟨(3/10 : ℚ), false, false, false, false, false, 0⟩,
  ⟨(3/10 : ℚ), false, false, false, false, false, 0⟩, ⟨(3/10 : ℚ), false, false, false, false, false, 0⟩, ⟨(3/10 : ℚ), false, false, false, false, false, 0⟩,
  ⟨(3/10 : ℚ), false, false, false, false, false, 0⟩, ⟨(3/10 : ℚ), false, false, false, false, false, 0⟩, ⟨(3/10 : ℚ), false, false, false, false, false, 0⟩,
  ⟨(3/10 : ℚ), false, false, false, false, false, 0⟩, ⟨(3/10 : ℚ), false, false, false, false, false, 0⟩, ⟨(3/10 : ℚ), false, false, false, false, false, 0⟩,
  ⟨(3/10 : ℚ), false, false, false, false, false, 0⟩, ⟨(3/10 : ℚ), false, false, false, false, false, 0⟩, ⟨(3/10 : ℚ), false, false, false, false, false, 0⟩,
  ⟨(3/10 : ℚ), false, false, false, false, false, 0⟩, ⟨(3/10 : ℚ), false, false, false, false, false, 0⟩
]

/-- Frames 221..240 of the schedule. -/
def bad_chunk_12 : List FrameInput := [
  ⟨(3/10 : ℚ), false, false, false, false, false, 0⟩, ⟨(3/10 : ℚ), false, false, false, false, false, 0⟩, ⟨(3/10 : ℚ), false, false, false, false, false, 0⟩,
  ⟨(3/10 : ℚ), false, false, false, false, false, 0⟩, ⟨(3/10 : ℚ), false, false, false, false, false, 0⟩, ⟨(3/10 : ℚ), false, false, false, false, false, 0⟩,
  ⟨(3/10 : ℚ), false, false, false, false, false, 0⟩, ⟨(3/10 : ℚ), false, false, false, false, false, 0⟩, ⟨(3/10 : ℚ), false, false, false, false, false, 0⟩,
  ⟨(3/10 : ℚ), false, false, false, false, false, 0⟩, ⟨(3/10 : ℚ), false, false, false, false, false, 0⟩, ⟨(3/10 : ℚ), false, false, false, false, false, 0⟩,
  ⟨(3/10 : ℚ), false, false, false, false, false, 0⟩, ⟨(3/10 : ℚ), false, false, false, false, false, 0⟩, ⟨(3/10 : ℚ), false, false, false, false, false, 0⟩,
  ⟨(3/10 : ℚ), false, false, false, false, false, 0⟩, ⟨(3/10 : ℚ), false, false, false, false, false, 0⟩, ⟨(3/10 : ℚ), false, false, false, false, false, 0⟩,
  ⟨(7/25 : ℚ), false, false, false, false, false, 0⟩, ⟨(7/25 : ℚ), false, false, false, false, false, 0⟩
]

/-- Frames 241..260 of the schedule. -/
def bad_chunk_13 : List FrameInput := [
  ⟨(7/25 : ℚ), false, false, false, false, false, 0⟩, ⟨(7/25 : ℚ), false, false, false, false, false, 0⟩, ⟨(7/25 : ℚ), false, false, false, false, false, 0⟩,
  ⟨(7/25 : ℚ), false, false, false, false, false, 0⟩, ⟨(7/25 : ℚ), false, false, false, false, false, 0⟩, ⟨(7/25 : ℚ), false, false, false, false, false, 0⟩,
  ⟨(7/25 : ℚ), false, false, false, false, false, 0⟩, ⟨(7/25 : ℚ), false, false, false, false, false, 0⟩, ⟨(7/25 : ℚ), false, false, false, false, false, 0⟩,
  ⟨(7/25 : ℚ), false, false, false, false, false, 0⟩, ⟨(7/25 : ℚ), false, false, false, false, false, 0⟩, ⟨(7/25 : ℚ), false, false, false, false, false, 0⟩,
  ⟨(7/25 : ℚ), false, false, false, false, false, 0⟩, ⟨(7/25 : ℚ), false, false, false, false, false, 0⟩, ⟨(7/25 : ℚ), false, false, false, false, false, 0⟩,
  ⟨(22/25 : ℚ), false, false, true, false, false, 0⟩, ⟨(7/25 : ℚ), false, false, false, false, false, 0⟩, ⟨(7/25 : ℚ), false, false, false, false, false, 0⟩,
  ⟨(7/25 : ℚ), false, false, false, false, false, 0⟩, ⟨(7/25 : ℚ), false, false, false, false, false, 0⟩
]

/-- Frames 261..261 of the schedule. -/
def bad_chunk_14 : List FrameInput := [
  ⟨(1/25 : ℚ), false, false, false, false, true, 0⟩
]

/-- Growing prefixes of the schedule, used to keep each checkpoint proof
shallow. -/
def bad_prefix_1 : List FrameInput := bad_chunk_1
/-- Frames 1..40 of the schedule. -/
def bad_prefix_2 : List FrameInput := bad_prefix_1 ++ bad_chunk_2
/-- Frames 1..60 of the schedule. -/
def bad_prefix_3 : List FrameInput := bad_prefix_2 ++ bad_chunk_3
/-- Frames 1..80 of the schedule. -/
def bad_prefix_4 : List FrameInput := bad_prefix_3 ++ bad_chunk_4
/-- Frames 1..100 of the schedule. -/
def bad_prefix_5 : List FrameInput := bad_prefix_4 ++ bad_chunk_5
/-- Frames 1..120 of the schedule. -/
def bad_prefix_6 : List FrameInput := bad_prefix_5 ++ bad_chunk_6
/-- Frames 1..140 of the schedule. -/
def bad_prefix_7 : List FrameInput := bad_prefix_6 ++ bad_chunk_7
/-- Frames 1..160 of the schedule. -/
def bad_prefix_8 : List FrameInput := bad_prefix_7 ++ bad_chunk_8
/-- Frames 1..180 of the schedule. -/
def bad_prefix_9 : List FrameInput := bad_prefix_8 ++ bad_chunk_9
/-- Frames 1..200 of the schedule. -/
def bad_prefix_10 : List FrameInput := bad_prefix_9 ++ bad_chunk_10
/-- Frames 1..220 of the schedule. -/
def bad_prefix_11 : List FrameInput := bad_prefix_10 ++ bad_chunk_11
/-- Frames 1..240 of the schedule. -/
def bad_prefix_12 : List FrameInput := bad_prefix_11 ++ bad_chunk_12
/-- Frames 1..260 of the schedule. -/
def bad_prefix_13 : List FrameInput := bad_prefix_12 ++ bad_chunk_13
/-- Frames 1..261 of the schedule. -/
def bad_prefix_14 : List FrameInput := bad_prefix_13 ++ bad_chunk_14

/-- The whole schedule reaching the bad state. -/
def bad_inputs : List FrameInput := bad_prefix_14

/-- Checkpoint: the state after chunk 1 of `bad_inputs`. -/
def bad_mid_1 : GameState :=
{ players := [⟨0, (0 : ℚ), (-200 : ℚ)⟩],
  enemies := [⟨3, (172 : ℚ), (80 : ℚ)⟩,
    ⟨4, (232 : ℚ), (80 : ℚ)⟩,
    ⟨5, (292 : ℚ), (80 : ℚ)⟩,
    ⟨6, (352 : ℚ), (80 : ℚ)⟩,
    ⟨7, (412 : ℚ), (80 : ℚ)⟩,
    ⟨8, (472 : ℚ), (80 : ℚ)⟩,
    ⟨9, (52 : ℚ), (120 : ℚ)⟩,
    ⟨10, (112 : ℚ), (120 : ℚ)⟩,
    ⟨11, (172 : ℚ), (120 : ℚ)⟩,
    ⟨12, (232 : ℚ), (120 : ℚ)⟩,
    ⟨13, (292 : ℚ), (120 : ℚ)⟩,
    ⟨14, (352 : ℚ), (120 : ℚ)⟩,
    ⟨15, (412 : ℚ), (120 : ℚ)⟩,
    ⟨16, (472 : ℚ), (120 : ℚ)⟩,
    ⟨17, (52 : ℚ), (160 : ℚ)⟩,
    ⟨18, (112 : ℚ), (160 : ℚ)⟩,
    ⟨19, (172 : ℚ), (160 : ℚ)⟩,
    ⟨20, (232 : ℚ), (160 : ℚ)⟩,
    ⟨21, (292 : ℚ), (160 : ℚ)⟩,
    ⟨22, (352 : ℚ), (160 : ℚ)⟩,
    ⟨23, (412 : ℚ), (160 : ℚ)⟩,
    ⟨24, (472 : ℚ), (160 : ℚ)⟩,
    ⟨25, (52 : ℚ), (200 : ℚ)⟩,
    ⟨26, (112 : ℚ), (200 : ℚ)⟩,
    ⟨27, (172 : ℚ), (200 : ℚ)⟩,
    ⟨28, (232 : ℚ), (200 : ℚ)⟩,
    ⟨29, (292 : ℚ), (200 : ℚ)⟩,
    ⟨30, (352 : ℚ), (200 : ℚ)⟩,
    ⟨31, (412 : ℚ), (200 : ℚ)⟩,
    ⟨32, (472 : ℚ), (200 : ℚ)⟩,
    ⟨33, (52 : ℚ), (240 : ℚ)⟩,
    ⟨34, (112 : ℚ), (240 : ℚ)⟩,
    ⟨35, (172 : ℚ), (240 : ℚ)⟩,
    ⟨36, (232 : ℚ), (240 : ℚ)⟩,
    ⟨37, (292 : ℚ), (240 : ℚ)⟩,
    ⟨38, (352 : ℚ), (240 : ℚ)⟩,
    ⟨39, (412 : ℚ), (240 : ℚ)⟩,
    ⟨40, (472 : ℚ), (240 : ℚ)⟩],
  bullets := [],
  enemy_bullets := [⟨46, (524 : ℚ), (-135 : ℚ)⟩],
  direction := (-1 : ℚ),
  game_over := false,
  score := 200,
  lives := 3,
  level := 1,
  enemy_speed := (100 : ℚ),
  shoot_elapsed := (1/10 : ℚ),
  enemy_shoot_elapsed := (7/10 : ℚ),
  next_id := 47 }

/-- Checkpoint: the state after chunk 2 of `bad_inputs`. -/
def bad_mid_2 : GameState :=
{ players := [⟨0, (0 : ℚ), (-200 : ℚ)⟩],
  enemies := [⟨9, (-476 : ℚ), (120 : ℚ)⟩,
    ⟨10, (-416 : ℚ), (120 : ℚ)⟩,
    ⟨11, (-356 : ℚ), (120 : ℚ)⟩,
    ⟨12, (-296 : ℚ), (120 : ℚ)⟩,
    ⟨13, (-236 : ℚ), (120 : ℚ)⟩,
    ⟨14, (-176 : ℚ), (120 : ℚ)⟩,
    ⟨15, (-116 : ℚ), (120 : ℚ)⟩,
    ⟨16, (-56 : ℚ), (120 : ℚ)⟩,
    ⟨17, (-476 : ℚ), (160 : ℚ)⟩,
    ⟨18, (-416 : ℚ), (160 : ℚ)⟩,
    ⟨19, (-356 : ℚ), (160 : ℚ)⟩,
    ⟨20, (-296 : ℚ), (160 : ℚ)⟩,
    ⟨21, (-236 : ℚ), (160 : ℚ)⟩,
    ⟨22, (-176 : ℚ), (160 : ℚ)⟩,
    ⟨23, (-116 : ℚ), (160 : ℚ)⟩,
    ⟨24, (-56 : ℚ), (160 : ℚ)⟩,
    ⟨25, (-476 : ℚ), (200 : ℚ)⟩,
    ⟨26, (-416 : ℚ), (200 : ℚ)⟩,
    ⟨27, (-356 : ℚ), (200 : ℚ)⟩,
    ⟨28, (-296 : ℚ), (200 : ℚ)⟩,
    ⟨29, (-236 : ℚ), (200 : ℚ)⟩,
    ⟨30, (-176 : ℚ), (200 : ℚ)⟩,
    ⟨31, (-116 : ℚ), (200 : ℚ)⟩,
    ⟨32, (-56 : ℚ), (200 : ℚ)⟩,
    ⟨33, (-476 : ℚ), (240 : ℚ)⟩,
    ⟨34, (-416 : ℚ), (240 : ℚ)⟩,
    ⟨35, (-356 : ℚ), (240 : ℚ)⟩,
    ⟨36, (-296 : ℚ), (240 : ℚ)⟩,
    ⟨37, (-236 : ℚ), (240 : ℚ)⟩,
    ⟨38, (-176 : ℚ), (240 : ℚ)⟩,
    ⟨39, (-116 : ℚ), (240 : ℚ)⟩,
    ⟨40, (-56 : ℚ), (240 : ℚ)⟩],
  bullets := [],
  enemy_bullets := [⟨56, (-364 : ℚ), (-245 : ℚ)⟩],
  direction := (-1 : ℚ),
  game_over := false,
  score := 800,
  lives := 3,
  level := 1,
  enemy_speed := (100 : ℚ),
  shoot_elapsed := (7/25 : ℚ),
  enemy_shoot_elapsed := (59/50 : ℚ),
  next_id := 57 }

/-- Checkpoint: the state after chunk 3 of `bad_inputs`. -/
def bad_mid_3 : GameState :=
{ players := [⟨67, (0 : ℚ), (-200 : ℚ)⟩],
  enemies := [⟨9, (-176 : ℚ), (100 : ℚ)⟩,
    ⟨10, (-116 : ℚ), (100 : ℚ)⟩,
    ⟨11, (-56 : ℚ), (100 : ℚ)⟩,
    ⟨17, (-176 : ℚ), (140 : ℚ)⟩,
    ⟨18, (-116 : ℚ), (140 : ℚ)⟩,
    ⟨19, (-56 : ℚ), (140 : ℚ)⟩,
    ⟨20, (4 : ℚ), (140 : ℚ)⟩,
    ⟨21, (64 : ℚ), (140 : ℚ)⟩,
    ⟨22, (124 : ℚ), (140 : ℚ)⟩,
    ⟨23, (184 : ℚ), (140 : ℚ)⟩,
    ⟨24, (244 : ℚ), (140 : ℚ)⟩,
    ⟨25, (-176 : ℚ), (180 : ℚ)⟩,
    ⟨26, (-116 : ℚ), (180 : ℚ)⟩,
    ⟨27, (-56 : ℚ), (180 : ℚ)⟩,
    ⟨28, (4 : ℚ), (180 : ℚ)⟩,
    ⟨29, (64 : ℚ), (180 : ℚ)⟩,
    ⟨30, (124 : ℚ), (180 : ℚ)⟩,
    ⟨31, (184 : ℚ), (180 : ℚ)⟩,
    ⟨32, (244 : ℚ), (180 : ℚ)⟩,
    ⟨33, (-176 : ℚ), (220 : ℚ)⟩,
    ⟨34, (-116 : ℚ), (220 : ℚ)⟩,
    ⟨35, (-56 : ℚ), (220 : ℚ)⟩,
    ⟨36, (4 : ℚ), (220 : ℚ)⟩,
    ⟨37, (64 : ℚ), (220 : ℚ)⟩,
    ⟨38, (124 : ℚ), (220 : ℚ)⟩,
    ⟨39, (184 : ℚ), (220 : ℚ)⟩,
    ⟨40, (244 : ℚ), (220 : ℚ)⟩],
  bullets := [],
  enemy_bullets := [],
  direction := (1 : ℚ),
  game_over := false,
  score := 1300,
  lives := 2,
  level := 1,
  enemy_speed := (100 : ℚ),
  shoot_elapsed := (7/25 : ℚ),
  enemy_shoot_elapsed := (22/25 : ℚ),
  next_id := 68 }

/-- Checkpoint: the state after chunk 4 of `bad_inputs`. -/
def bad_mid_4 : GameState :=
{ players := [⟨71, (0 : ℚ), (-200 : ℚ)⟩],
  enemies := [⟨11, (152 : ℚ), (80 : ℚ)⟩,
    ⟨17, (32 : ℚ), (120 : ℚ)⟩,
    ⟨18, (92 : ℚ), (120 : ℚ)⟩,
    ⟨19, (152 : ℚ), (120 : ℚ)⟩,
    ⟨20, (212 : ℚ), (120 : ℚ)⟩,
    ⟨21, (272 : ℚ), (120 : ℚ)⟩,
    ⟨22, (332 : ℚ), (120 : ℚ)⟩,
    ⟨23, (392 : ℚ), (120 : ℚ)⟩,
    ⟨24, (452 : ℚ), (120 : ℚ)⟩,
    ⟨25, (32 : ℚ), (160 : ℚ)⟩,
    ⟨26, (92 : ℚ), (160 : ℚ)⟩,
    ⟨27, (152 : ℚ), (160 : ℚ)⟩,
    ⟨28, (212 : ℚ), (160 : ℚ)⟩,
    ⟨29, (272 : ℚ), (160 : ℚ)⟩,
    ⟨30, (332 : ℚ), (160 : ℚ)⟩,
    ⟨31, (392 : ℚ), (160 : ℚ)⟩,
    ⟨32, (452 : ℚ), (160 : ℚ)⟩,
    ⟨33, (32 : ℚ), (200 : ℚ)⟩,
    ⟨34, (92 : ℚ), (200 : ℚ)⟩,
    ⟨35, (152 : ℚ), (200 : ℚ)⟩,
    ⟨36, (212 : ℚ), (200 : ℚ)⟩,
    ⟨37, (272 : ℚ), (200 : ℚ)⟩,
    ⟨38, (332 : ℚ), (200 : ℚ)⟩,
    ⟨39, (392 : ℚ), (200 : ℚ)⟩,
    ⟨40, (452 : ℚ), (200 : ℚ)⟩],
  bullets := [],
  enemy_bullets := [⟨75, (478 : ℚ), (-30 : ℚ)⟩],
  direction := (-1 : ℚ),
  game_over := false,
  score := 1500,
  lives := 1,
  level := 1,
  enemy_speed := (100 : ℚ),
  shoot_elapsed := (3/50 : ℚ),
  enemy_shoot_elapsed := (9/25 : ℚ),
  next_id := 76 }

/-- Checkpoint: the state after chunk 5 of `bad_inputs`. -/
def bad_mid_5 : GameState :=
{ players := [⟨71, (0 : ℚ), (-200 : ℚ)⟩],
  enemies := [⟨17, (-544 : ℚ), (120 : ℚ)⟩,
    ⟨18, (-484 : ℚ), (120 : ℚ)⟩,
    ⟨19, (-424 : ℚ), (120 : ℚ)⟩,
    ⟨25, (-544 : ℚ), (160 : ℚ)⟩,
    ⟨26, (-484 : ℚ), (160 : ℚ)⟩,
    ⟨27, (-424 : ℚ), (160 : ℚ)⟩,
    ⟨28, (-364 : ℚ), (160 : ℚ)⟩,
    ⟨29, (-304 : ℚ), (160 : ℚ)⟩,
    ⟨30, (-244 : ℚ), (160 : ℚ)⟩,
    ⟨31, (-184 : ℚ), (160 : ℚ)⟩,
    ⟨32, (-124 : ℚ), (160 : ℚ)⟩,
    ⟨33, (-544 : ℚ), (200 : ℚ)⟩,
    ⟨34, (-484 : ℚ), (200 : ℚ)⟩,
    ⟨35, (-424 : ℚ), (200 : ℚ)⟩,
    ⟨36, (-364 : ℚ), (200 : ℚ)⟩,
    ⟨37, (-304 : ℚ), (200 : ℚ)⟩,
    ⟨38, (-244 : ℚ), (200 : ℚ)⟩,
    ⟨39, (-184 : ℚ), (200 : ℚ)⟩,
    ⟨40, (-124 : ℚ), (200 : ℚ)⟩],
  bullets := [],
  enemy_bullets := [⟨85, (-424 : ℚ), (-275 : ℚ)⟩,
    ⟨86, (-544 : ℚ), (25 : ℚ)⟩],
  direction := (-1 : ℚ),
  game_over := false,
  score := 2100,
  lives := 1,
  level := 1,
  enemy_speed := (100 : ℚ),
  shoot_elapsed := (3/25 : ℚ),
  enemy_shoot_elapsed := (3/25 : ℚ),
  next_id := 87 }

/-- Checkpoint: the state after chunk 6 of `bad_inputs`. -/
def bad_mid_6 : GameState :=
{ players := [⟨71, (0 : ℚ), (-200 : ℚ)⟩],
  enemies := [⟨17, (-128 : ℚ), (100 : ℚ)⟩,
    ⟨18, (-68 : ℚ), (100 : ℚ)⟩,
    ⟨25, (-128 : ℚ), (140 : ℚ)⟩,
    ⟨26, (-68 : ℚ), (140 : ℚ)⟩,
    ⟨27, (-8 : ℚ), (140 : ℚ)⟩,
    ⟨28, (52 : ℚ), (140 : ℚ)⟩,
    ⟨29, (112 : ℚ), (140 : ℚ)⟩,
    ⟨30, (172 : ℚ), (140 : ℚ)⟩,
    ⟨31, (232 : ℚ), (140 : ℚ)⟩,
    ⟨32, (292 : ℚ), (140 : ℚ)⟩,
    ⟨33, (-128 : ℚ), (180 : ℚ)⟩,
    ⟨34, (-68 : ℚ), (180 : ℚ)⟩,
    ⟨35, (-8 : ℚ), (180 : ℚ)⟩,
    ⟨36, (52 : ℚ), (180 : ℚ)⟩,
    ⟨37, (112 : ℚ), (180 : ℚ)⟩,
    ⟨38, (172 : ℚ), (180 : ℚ)⟩,
    ⟨39, (232 : ℚ), (180 : ℚ)⟩,
    ⟨40, (292 : ℚ), (180 : ℚ)⟩],
  bullets := [⟨92, (0 : ℚ), (-180 : ℚ)⟩],
  enemy_bullets := [⟨90, (-212 : ℚ), (-200 : ℚ)⟩],
  direction := (1 : ℚ),
  game_over := false,
  score := 2200,
  lives := 1,
  level := 1,
  enemy_speed := (100 : ℚ),
  shoot_elapsed := (2/25 : ℚ),
  enemy_shoot_elapsed := (49/50 : ℚ),
  next_id := 93 }

/-- Checkpoint: the state after chunk 7 of `bad_inputs`. -/
def bad_mid_7 : GameState :=
{ players := [⟨71, (0 : ℚ), (-200 : ℚ)⟩],
  enemies := [⟨27, (26 : ℚ), (120 : ℚ)⟩,
    ⟨28, (86 : ℚ), (120 : ℚ)⟩,
    ⟨29, (146 : ℚ), (120 : ℚ)⟩,
    ⟨30, (206 : ℚ), (120 : ℚ)⟩,
    ⟨31, (266 : ℚ), (120 : ℚ)⟩,
    ⟨32, (326 : ℚ), (120 : ℚ)⟩,
    ⟨33, (-94 : ℚ), (160 : ℚ)⟩,
    ⟨34, (-34 : ℚ), (160 : ℚ)⟩,
    ⟨35, (26 : ℚ), (160 : ℚ)⟩,
    ⟨36, (86 : ℚ), (160 : ℚ)⟩,
    ⟨37, (146 : ℚ), (160 : ℚ)⟩,
    ⟨38, (206 : ℚ), (160 : ℚ)⟩,
    ⟨39, (266 : ℚ), (160 : ℚ)⟩,
    ⟨40, (326 : ℚ), (160 : ℚ)⟩],
  bullets := [⟨101, (0 : ℚ), (-30 : ℚ)⟩],
  enemy_bullets := [⟨100, (416 : ℚ), (-200 : ℚ)⟩],
  direction := (-1 : ℚ),
  game_over := false,
  score := 2600,
  lives := 1,
  level := 1,
  enemy_speed := (100 : ℚ),
  shoot_elapsed := (7/50 : ℚ),
  enemy_shoot_elapsed := (26/25 : ℚ),
  next_id := 102 }

/-- Checkpoint: the state after chunk 8 of `bad_inputs`. -/
def bad_mid_8 : GameState :=
{ players := [⟨71, (0 : ℚ), (-200 : ℚ)⟩],
  enemies := [⟨33, (-498 : ℚ), (140 : ℚ)⟩,
    ⟨34, (-438 : ℚ), (140 : ℚ)⟩,
    ⟨35, (-378 : ℚ), (140 : ℚ)⟩,
    ⟨36, (-318 : ℚ), (140 : ℚ)⟩,
    ⟨37, (-258 : ℚ), (140 : ℚ)⟩,
    ⟨38, (-198 : ℚ), (140 : ℚ)⟩,
    ⟨39, (-138 : ℚ), (140 : ℚ)⟩,
    ⟨40, (-78 : ℚ), (140 : ℚ)⟩],
  bullets := [⟨112, (0 : ℚ), (-180 : ℚ)⟩],
  enemy_bullets := [⟨111, (-594 : ℚ), (-270 : ℚ)⟩,
    ⟨113, (-498 : ℚ), (40 : ℚ)⟩],
  direction := (1 : ℚ),
  game_over := false,
  score := 3200,
  lives := 1,
  level := 1,
  enemy_speed := (100 : ℚ),
  shoot_elapsed := (7/50 : ℚ),
  enemy_shoot_elapsed := (7/50 : ℚ),
  next_id := 114 }

/-- Checkpoint: the state after chunk 9 of `bad_inputs`. -/
def bad_mid_9 : GameState :=
{ players := [⟨71, (0 : ℚ), (-200 : ℚ)⟩],
  enemies := [⟨33, (138 : ℚ), (140 : ℚ)⟩],
  bullets := [],
  enemy_bullets := [⟨125, (106 : ℚ), (-40 : ℚ)⟩],
  direction := (1 : ℚ),
  game_over := false,
  score := 3900,
  lives := 1,
  level := 1,
  enemy_speed := (100 : ℚ),
  shoot_elapsed := (1/5 : ℚ),
  enemy_shoot_elapsed := (1/2 : ℚ),
  next_id := 126 }

/-- Checkpoint: the state after chunk 10 of `bad_inputs`. -/
def bad_mid_10 : GameState :=
{ players := [⟨71, (0 : ℚ), (-200 : ℚ)⟩],
  enemies := [⟨33, (498 : ℚ), (120 : ℚ)⟩],
  bullets := [],
  enemy_bullets := [⟨130, (558 : ℚ), (-125 : ℚ)⟩],
  direction := (-1 : ℚ),
  game_over := false,
  score := 3900,
  lives := 1,
  level := 1,
  enemy_speed := (100 : ℚ),
  shoot_elapsed := (11/50 : ℚ),
  enemy_shoot_elapsed := (41/50 : ℚ),
  next_id := 131 }

/-- Checkpoint: the state after chunk 11 of `bad_inputs`. -/
def bad_mid_11 : GameState :=
{ players := [⟨71, (0 : ℚ), (-200 : ℚ)⟩],
  enemies := [⟨33, (-102 : ℚ), (120 : ℚ)⟩],
  bullets := [],
  enemy_bullets := [⟨135, (-42 : ℚ), (-125 : ℚ)⟩],
  direction := (-1 : ℚ),
  game_over := false,
  score := 3900,
  lives := 1,
  level := 1,
  enemy_speed := (100 : ℚ),
  shoot_elapsed := (11/50 : ℚ),
  enemy_shoot_elapsed := (41/50 : ℚ),
  next_id := 136 }

/-- Checkpoint: the state after chunk 12 of `bad_inputs`. -/
def bad_mid_12 : GameState :=
{ players := [⟨71, (0 : ℚ), (-200 : ℚ)⟩],
  enemies := [⟨33, (-556 : ℚ), (100 : ℚ)⟩],
  bullets := [],
  enemy_bullets := [⟨140, (-612 : ℚ), (-135 : ℚ)⟩],
  direction := (1 : ℚ),
  game_over := false,
  score := 3900,
  lives := 1,
  level := 1,
  enemy_speed := (100 : ℚ),
  shoot_elapsed := (9/50 : ℚ),
  enemy_shoot_elapsed := (39/50 : ℚ),
  next_id := 141 }

/-- Checkpoint: the state after chunk 13 of `bad_inputs`. -/
def bad_mid_13 : GameState :=
{ players := [],
  enemies := [],
  bullets := [],
  enemy_bullets := [],
  direction := (1 : ℚ),
  game_over := true,
  score := 4000,
  lives := 0,
  level := 1,
  enemy_speed := (100 : ℚ),
  shoot_elapsed := (2/25 : ℚ),
  enemy_shoot_elapsed := (49/50 : ℚ),
  next_id := 147 }

/-- The state reached by `bad_inputs`: a live player (id 147) coexists
with `lives = 0` — `next_level` ran with the enemy set empty and the R-less
game-over state, respawned the player, and never reset `PlayerLives`. -/
def bad_state : GameState :=
{ players := [⟨147, (0 : ℚ), (-200 : ℚ)⟩],
  enemies := [⟨148, (-210 : ℚ), (100 : ℚ)⟩,
    ⟨149, (-150 : ℚ), (100 : ℚ)⟩,
    ⟨150, (-90 : ℚ), (100 : ℚ)⟩,
    ⟨151, (-30 : ℚ), (100 : ℚ)⟩,
    ⟨152, (30 : ℚ), (100 : ℚ)⟩,
    ⟨153, (90 : ℚ), (100 : ℚ)⟩,
    ⟨154, (150 : ℚ), (100 : ℚ)⟩,
    ⟨155, (210 : ℚ), (100 : ℚ)⟩,
    ⟨156, (-210 : ℚ), (140 : ℚ)⟩,
    ⟨157, (-150 : ℚ), (140 : ℚ)⟩,
    ⟨158, (-90 : ℚ), (140 : ℚ)⟩,
    ⟨159, (-30 : ℚ), (140 : ℚ)⟩,
    ⟨160, (30 : ℚ), (140 : ℚ)⟩,
    ⟨161, (90 : ℚ), (140 : ℚ)⟩,
    ⟨162, (150 : ℚ), (140 : ℚ)⟩,
    ⟨163, (210 : ℚ), (140 : ℚ)⟩,
    ⟨164, (-210 : ℚ), (180 : ℚ)⟩,
    ⟨165, (-150 : ℚ), (180 : ℚ)⟩,
    ⟨166, (-90 : ℚ), (180 : ℚ)⟩,
    ⟨167, (-30 : ℚ), (180 : ℚ)⟩,
    ⟨168, (30 : ℚ), (180 : ℚ)⟩,
    ⟨169, (90 : ℚ), (180 : ℚ)⟩,
    ⟨170, (150 : ℚ), (180 : ℚ)⟩,
    ⟨171, (210 : ℚ), (180 : ℚ)⟩,
    ⟨172, (-210 : ℚ), (220 : ℚ)⟩,
    ⟨173, (-150 : ℚ), (220 : ℚ)⟩,
    ⟨174, (-90 : ℚ), (220 : ℚ)⟩,
    ⟨175, (-30 : ℚ), (220 : ℚ)⟩,
    ⟨176, (30 : ℚ), (220 : ℚ)⟩,
    ⟨177, (90 : ℚ), (220 : ℚ)⟩,
    ⟨178, (150 : ℚ), (220 : ℚ)⟩,
    ⟨179, (210 : ℚ), (220 : ℚ)⟩,
    ⟨180, (-210 : ℚ), (260 : ℚ)⟩,
    ⟨181, (-150 : ℚ), (260 : ℚ)⟩,
    ⟨182, (-90 : ℚ), (260 : ℚ)⟩,
    ⟨183, (-30 : ℚ), (260 : ℚ)⟩,
    ⟨184, (30 : ℚ), (260 : ℚ)⟩,
    ⟨185, (90 : ℚ), (260 : ℚ)⟩,
    ⟨186, (150 : ℚ), (260 : ℚ)⟩,
    ⟨187, (210 : ℚ), (260 : ℚ)⟩],
  bullets := [],
  enemy_bullets := [],
  direction := (1 : ℚ),
  game_over := false,
  score := 4000,
  lives := 0,
  level := 2,
  enemy_speed := (150 : ℚ),
  shoot_elapsed := (3/25 : ℚ),
  enemy_shoot_elapsed := (51/50 : ℚ),
  next_id := 188 }

/-- The 4 frames after `bad_inputs`: the fresh wave fires at the lives-0
player and the bullet lands, driving the unguarded u32 decrement past zero. -/
def wrap_inputs : List FrameInput := [
  ⟨(7/25 : ℚ), false, false, false, false, false, 3⟩, ⟨(7/25 : ℚ), false, false, false, false, false, 0⟩, ⟨(7/25 : ℚ), false, false, false, false, false, 0⟩,
  ⟨(7/25 : ℚ), false, false, false, false, false, 0⟩
]

/-- The state after the wrap hit: `PlayerLives` holds 2^32 - 1. -/
def wrap_state : GameState :=
{ players := [],
  enemies := [⟨148, (-42 : ℚ), (100 : ℚ)⟩,
    ⟨149, (18 : ℚ), (100 : ℚ)⟩,
    ⟨150, (78 : ℚ), (100 : ℚ)⟩,
    ⟨151, (138 : ℚ), (100 : ℚ)⟩,
    ⟨152, (198 : ℚ), (100 : ℚ)⟩,
    ⟨153, (258 : ℚ), (100 : ℚ)⟩,
    ⟨154, (318 : ℚ), (100 : ℚ)⟩,
    ⟨155, (378 : ℚ), (100 : ℚ)⟩,
    ⟨156, (-42 : ℚ), (140 : ℚ)⟩,
    ⟨157, (18 : ℚ), (140 : ℚ)⟩,
    ⟨158, (78 : ℚ), (140 : ℚ)⟩,
    ⟨159, (138 : ℚ), (140 : ℚ)⟩,
    ⟨160, (198 : ℚ), (140 : ℚ)⟩,
    ⟨161, (258 : ℚ), (140 : ℚ)⟩,
    ⟨162, (318 : ℚ), (140 : ℚ)⟩,
    ⟨163, (378 : ℚ), (140 : ℚ)⟩,
    ⟨164, (-42 : ℚ), (180 : ℚ)⟩,
    ⟨165, (18 : ℚ), (180 : ℚ)⟩,
    ⟨166, (78 : ℚ), (180 : ℚ)⟩,
    ⟨167, (138 : ℚ), (180 : ℚ)⟩,
    ⟨168, (198 : ℚ), (180 : ℚ)⟩,
    ⟨169, (258 : ℚ), (180 : ℚ)⟩,
    ⟨170, (318 : ℚ), (180 : ℚ)⟩,
    ⟨171, (378 : ℚ), (180 : ℚ)⟩,
    ⟨172, (-42 : ℚ), (220 : ℚ)⟩,
    ⟨173, (18 : ℚ), (220 : ℚ)⟩,
    ⟨174, (78 : ℚ), (220 : ℚ)⟩,
    ⟨175, (138 : ℚ), (220 : ℚ)⟩,
    ⟨176, (198 : ℚ), (220 : ℚ)⟩,
    ⟨177, (258 : ℚ), (220 : ℚ)⟩,
    ⟨178, (318 : ℚ), (220 : ℚ)⟩,
    ⟨179, (378 : ℚ), (220 : ℚ)⟩,
    ⟨180, (-42 : ℚ), (260 : ℚ)⟩,
    ⟨181, (18 : ℚ), (260 : ℚ)⟩,
    ⟨182, (78 : ℚ), (260 : ℚ)⟩,
    ⟨183, (138 : ℚ), (260 : ℚ)⟩,
    ⟨184, (198 : ℚ), (260 : ℚ)⟩,
    ⟨185, (258 : ℚ), (260 : ℚ)⟩,
    ⟨186, (318 : ℚ), (260 : ℚ)⟩,
    ⟨187, (378 : ℚ), (260 : ℚ)⟩],
  bullets := [],
  enemy_bullets := [],
  direction := (1 : ℚ),
  game_over := true,
  score := 4000,
  lives := 4294967295,
  level := 2,
  enemy_speed := (150 : ℚ),
  shoot_elapsed := (1/25 : ℚ),
  enemy_shoot_elapsed := (47/50 : ℚ),
  next_id := 189 }

/-- The wrap segment evaluates as recorded. -/
theorem run_wrap_chunk : run 640 bad_state wrap_inputs = wrap_state := by
  with_unfolding_all rfl

/-- Chunk 1 of the schedule evaluates as recorded. -/
theorem run_bad_chunk_1 : run 640 init_state bad_chunk_1 = bad_mid_1 := by
  with_unfolding_all rfl

/-- Chunk 2 of the schedule evaluates as recorded. -/
theorem run_bad_chunk_2 : run 640 bad_mid_1 bad_chunk_2 = bad_mid_2 := by
  with_unfolding_all rfl

/-- Chunk 3 of the schedule evaluates as recorded. -/
theorem run_bad_chunk_3 : run 640 bad_mid_2 bad_chunk_3 = bad_mid_3 := by
  with_unfolding_all rfl

/-- Chunk 4 of the schedule evaluates as recorded. -/
theorem run_bad_chunk_4 : run 640 bad_mid_3 bad_chunk_4 = bad_mid_4 := by
  with_unfolding_all rfl

/-- Chunk 5 of the schedule evaluates as recorded. -/
theorem run_bad_chunk_5 : run 640 bad_mid_4 bad_chunk_5 = bad_mid_5 := by
  with_unfolding_all rfl

/-- Chunk 6 of the schedule evaluates as recorded. -/
theorem run_bad_chunk_6 : run 640 bad_mid_5 bad_chunk_6 = bad_mid_6 := by
  with_unfolding_all rfl

/-- Chunk 7 of the schedule evaluates as recorded. -/
theorem run_bad_chunk_7 : run 640 bad_mid_6 bad_chunk_7 = bad_mid_7 := by
  with_unfolding_all rfl

/-- Chunk 8 of the schedule evaluates as recorded. -/
theorem run_bad_chunk_8 : run 640 bad_mid_7 bad_chunk_8 = bad_mid_8 := by
  with_unfolding_all rfl

/-- Chunk 9 of the schedule evaluates as recorded. -/
theorem run_bad_chunk_9 : run 640 bad_mid_8 bad_chunk_9 = bad_mid_9 := by
  with_unfolding_all rfl

/-- Chunk 10 of the schedule evaluates as recorded. -/
theorem run_bad_chunk_10 : run 640 bad_mid_9 bad_chunk_10 = bad_mid_10 := by
  with_unfolding_all rfl

/-- Chunk 11 of the schedule evaluates as recorded. -/
theorem run_bad_chunk_11 : run 640 bad_mid_10 bad_chunk_11 = bad_mid_11 := by
  with_unfolding_all rfl

/-- Chunk 12 of the schedule evaluates as recorded. -/
theorem run_bad_chunk_12 : run 640 bad_mid_11 bad_chunk_12 = bad_mid_12 := by
  with_unfolding_all rfl

/-- Chunk 13 of the schedule evaluates as recorded. -/
theorem run_bad_chunk_13 : run 640 bad_mid_12 bad_chunk_13 = bad_mid_13 := by
  with_unfolding_all rfl

/-- Chunk 14 of the schedule evaluates as recorded. -/
theorem run_bad_chunk_14 : run 640 bad_mid_13 bad_chunk_14 = bad_state := by
  with_unfolding_all rfl

/-- Prefix 1 of the schedule reaches its checkpoint. -/
theorem run_bad_prefix_1 : run 640 init_state bad_prefix_1 = bad_mid_1 :=
  run_bad_chunk_1

/-- Prefix 2 of the schedule reaches its checkpoint. -/
theorem run_bad_prefix_2 : run 640 init_state bad_prefix_2 = bad_mid_2 := by
  show run 640 init_state (bad_prefix_1 ++ bad_chunk_2) = bad_mid_2
  rw [run_append, run_bad_prefix_1, run_bad_chunk_2]

/-- Prefix 3 of the schedule reaches its checkpoint. -/
theorem run_bad_prefix_3 : run 640 init_state bad_prefix_3 = bad_mid_3 := by
  show run 640 init_state (bad_prefix_2 ++ bad_chunk_3) = bad_mid_3
  rw [run_append, run_bad_prefix_2, run_bad_chunk_3]

/-- Prefix 4 of the schedule reaches its checkpoint. -/
theorem run_bad_prefix_4 : run 640 init_state bad_prefix_4 = bad_mid_4 := by
  show run 640 init_state (bad_prefix_3 ++ bad_chunk_4) = bad_mid_4
  rw [run_append, run_bad_prefix_3, run_bad_chunk_4]

/-- Prefix 5 of the schedule reaches its checkpoint. -/
theorem run_bad_prefix_5 : run 640 init_state bad_prefix_5 = bad_mid_5 := by
  show run 640 init_state (bad_prefix_4 ++ bad_chunk_5) = bad_mid_5
  rw [run_append, run_bad_prefix_4, run_bad_chunk_5]

/-- Prefix 6 of the schedule reaches its checkpoint. -/
theorem run_bad_prefix_6 : run 640 init_state bad_prefix_6 = bad_mid_6 := by
  show run 640 init_state (bad_prefix_5 ++ bad_chunk_6) = bad_mid_6
  rw [run_append, run_bad_prefix_5, run_bad_chunk_6]

/-- Prefix 7 of the schedule reaches its checkpoint. -/
theorem run_bad_prefix_7 : run 640 init_state bad_prefix_7 = bad_mid_7 := by
  show run 640 init_state (bad_prefix_6 ++ bad_chunk_7) = bad_mid_7
  rw [run_append, run_bad_prefix_6, run_bad_chunk_7]

/-- Prefix 8 of the schedule reaches its checkpoint. -/
theorem run_bad_prefix_8 : run 640 init_state bad_prefix_8 = bad_mid_8 := by
  show run 640 init_state (bad_prefix_7 ++ bad_chunk_8) = bad_mid_8
  rw [run_append, run_bad_prefix_7, run_bad_chunk_8]

/-- Prefix 9 of the schedule reaches its checkpoint. -/
theorem run_bad_prefix_9 : run 640 init_state bad_prefix_9 = bad_mid_9 := by
  show run 640 init_state (bad_prefix_8 ++ bad_chunk_9) = bad_mid_9
  rw [run_append, run_bad_prefix_8, run_bad_chunk_9]

/-- Prefix 10 of the schedule reaches its checkpoint. -/
theorem run_bad_prefix_10 : run 640 init_state bad_prefix_10 = bad_mid_10 := by
  show run 640 init_state (bad_prefix_9 ++ bad_chunk_10) = bad_mid_10
  rw [run_append, run_bad_prefix_9, run_bad_chunk_10]

/-- Prefix 11 of the schedule reaches its checkpoint. -/
theorem run_bad_prefix_11 : run 640 init_state bad_prefix_11 = bad_mid_11 := by
  show run 640 init_state (bad_prefix_10 ++ bad_chunk_11) = bad_mid_11
  rw [run_append, run_bad_prefix_10, run_bad_chunk_11]

/-- Prefix 12 of the schedule reaches its checkpoint. -/
theorem run_bad_prefix_12 : run 640 init_state bad_prefix_12 = bad_mid_12 := by
  show run 640 init_state (bad_prefix_11 ++ bad_chunk_12) = bad_mid_12
  rw [run_append, run_bad_prefix_11, run_bad_chunk_12]

/-- Prefix 13 of the schedule reaches its checkpoint. -/
theorem run_bad_prefix_13 : run 640 init_state bad_prefix_13 = bad_mid_13 := by
  show run 640 init_state (bad_prefix_12 ++ bad_chunk_13) = bad_mid_13
  rw [run_append, run_bad_prefix_12, run_bad_chunk_13]

/-- Prefix 14 of the schedule reaches its checkpoint. -/
theorem run_bad_prefix_14 : run 640 init_state bad_prefix_14 = bad_state := by
  show run 640 init_state (bad_prefix_13 ++ bad_chunk_14) = bad_state
  rw [run_append, run_bad_prefix_13, run_bad_chunk_14]

/-- The full schedule reaches `bad_state`: a reachable state in which a live
player coexists with `lives = 0`. -/
theorem run_bad_inputs_eq : run 640 init_state bad_inputs = bad_state :=
  run_bad_prefix_14
/-- Eighteen frames with a large time delta: every frame the formation
bounds check trips, so the wave steps down 20 each frame until an enemy
reaches y ≤ -250 and `check_game_over` sets the game-over flag. -/
def c2_prefix : List FrameInput := List.replicate 18 ⟨(10 : ℚ), false, false, false, false, false, 0⟩

/-- The game-over state reached by `c2_prefix`. -/
def c2_mid : GameState :=
{ players := [⟨0, (0 : ℚ), (-200 : ℚ)⟩],
  enemies := [⟨1, (-210 : ℚ), (-260 : ℚ)⟩,
    ⟨2, (-150 : ℚ), (-260 : ℚ)⟩,
    ⟨3, (-90 : ℚ), (-260 : ℚ)⟩,
    ⟨4, (-30 : ℚ), (-260 : ℚ)⟩,
    ⟨5, (30 : ℚ), (-260 : ℚ)⟩,
    ⟨6, (90 : ℚ), (-260 : ℚ)⟩,
    ⟨7, (150 : ℚ), (-260 : ℚ)⟩,
    ⟨8, (210 : ℚ), (-260 : ℚ)⟩,
    ⟨9, (-210 : ℚ), (-220 : ℚ)⟩,
    ⟨10, (-150 : ℚ), (-220 : ℚ)⟩,
    ⟨11, (-90 : ℚ), (-220 : ℚ)⟩,
    ⟨12, (-30 : ℚ), (-220 : ℚ)⟩,
    ⟨13, (30 : ℚ), (-220 : ℚ)⟩,
    ⟨14, (90 : ℚ), (-220 : ℚ)⟩,
    ⟨15, (150 : ℚ), (-220 : ℚ)⟩,
    ⟨16, (210 : ℚ), (-220 : ℚ)⟩,
    ⟨17, (-210 : ℚ), (-180 : ℚ)⟩,
    ⟨18, (-150 : ℚ), (-180 : ℚ)⟩,
    ⟨19, (-90 : ℚ), (-180 : ℚ)⟩,
    ⟨20, (-30 : ℚ), (-180 : ℚ)⟩,
    ⟨21, (30 : ℚ), (-180 : ℚ)⟩,
    ⟨22, (90 : ℚ), (-180 : ℚ)⟩,
    ⟨23, (150 : ℚ), (-180 : ℚ)⟩,
    ⟨24, (210 : ℚ), (-180 : ℚ)⟩,
    ⟨25, (-210 : ℚ), (-140 : ℚ)⟩,
    ⟨26, (-150 : ℚ), (-140 : ℚ)⟩,
    ⟨27, (-90 : ℚ), (-140 : ℚ)⟩,
    ⟨28, (-30 : ℚ), (-140 : ℚ)⟩,
    ⟨29, (30 : ℚ), (-140 : ℚ)⟩,
    ⟨30, (90 : ℚ), (-140 : ℚ)⟩,
    ⟨31, (150 : ℚ), (-140 : ℚ)⟩,
    ⟨32, (210 : ℚ), (-140 : ℚ)⟩,
    ⟨33, (-210 : ℚ), (-100 : ℚ)⟩,
    ⟨34, (-150 : ℚ), (-100 : ℚ)⟩,
    ⟨35, (-90 : ℚ), (-100 : ℚ)⟩,
    ⟨36, (-30 : ℚ), (-100 : ℚ)⟩,
    ⟨37, (30 : ℚ), (-100 : ℚ)⟩,
    ⟨38, (90 : ℚ), (-100 : ℚ)⟩,
    ⟨39, (150 : ℚ), (-100 : ℚ)⟩,
    ⟨40, (210 : ℚ), (-100 : ℚ)⟩],
  bullets := [],
  enemy_bullets := [],
  direction := (1 : ℚ),
  game_over := true,
  score := 0,
  lives := 3,
  level := 1,
  enemy_speed := (100 : ℚ),
  shoot_elapsed := (0 : ℚ),
  enemy_shoot_elapsed := (0 : ℚ),
  next_id := 59 }

/-- One frame holding ArrowLeft and Space after the game is over. -/
def c2_move_input : FrameInput := ⟨(3/10 : ℚ), true, false, true, false, false, 0⟩

/-- A further plain frame. -/
def c2_wait_input : FrameInput := ⟨(3/10 : ℚ), false, false, false, false, false, 0⟩

/-- The state one frame after `c2_mid`: the player moved, a bullet
spawned and the formation moved, although the game-over flag is set. -/
def c2_after : GameState :=
{ players := [⟨0, (-90 : ℚ), (-200 : ℚ)⟩],
  enemies := [⟨1, (-180 : ℚ), (-260 : ℚ)⟩,
    ⟨2, (-120 : ℚ), (-260 : ℚ)⟩,
    ⟨3, (-60 : ℚ), (-260 : ℚ)⟩,
    ⟨4, (0 : ℚ), (-260 : ℚ)⟩,
    ⟨5, (60 : ℚ), (-260 : ℚ)⟩,
    ⟨6, (120 : ℚ), (-260 : ℚ)⟩,
    ⟨7, (180 : ℚ), (-260 : ℚ)⟩,
    ⟨8, (240 : ℚ), (-260 : ℚ)⟩,
    ⟨9, (-180 : ℚ), (-220 : ℚ)⟩,
    ⟨10, (-120 : ℚ), (-220 : ℚ)⟩,
    ⟨11, (-60 : ℚ), (-220 : ℚ)⟩,
    ⟨12, (0 : ℚ), (-220 : ℚ)⟩,
    ⟨13, (60 : ℚ), (-220 : ℚ)⟩,
    ⟨14, (120 : ℚ), (-220 : ℚ)⟩,
    ⟨15, (180 : ℚ), (-220 : ℚ)⟩,
    ⟨16, (240 : ℚ), (-220 : ℚ)⟩,
    ⟨17, (-180 : ℚ), (-180 : ℚ)⟩,
    ⟨18, (-120 : ℚ), (-180 : ℚ)⟩,
    ⟨19, (-60 : ℚ), (-180 : ℚ)⟩,
    ⟨20, (0 : ℚ), (-180 : ℚ)⟩,
    ⟨21, (60 : ℚ), (-180 : ℚ)⟩,
    ⟨22, (120 : ℚ), (-180 : ℚ)⟩,
    ⟨23, (180 : ℚ), (-180 : ℚ)⟩,
    ⟨24, (240 : ℚ), (-180 : ℚ)⟩,
    ⟨25, (-180 : ℚ), (-140 : ℚ)⟩,
    ⟨26, (-120 : ℚ), (-140 : ℚ)⟩,
    ⟨27, (-60 : ℚ), (-140 : ℚ)⟩,
    ⟨28, (0 : ℚ), (-140 : ℚ)⟩,
    ⟨29, (60 : ℚ), (-140 : ℚ)⟩,
    ⟨30, (120 : ℚ), (-140 : ℚ)⟩,
    ⟨31, (180 : ℚ), (-140 : ℚ)⟩,
    ⟨32, (240 : ℚ), (-140 : ℚ)⟩,
    ⟨33, (-180 : ℚ), (-100 : ℚ)⟩,
    ⟨34, (-120 : ℚ), (-100 : ℚ)⟩,
    ⟨35, (-60 : ℚ), (-100 : ℚ)⟩,
    ⟨36, (0 : ℚ), (-100 : ℚ)⟩,
    ⟨37, (60 : ℚ), (-100 : ℚ)⟩,
    ⟨38, (120 : ℚ), (-100 : ℚ)⟩,
    ⟨39, (180 : ℚ), (-100 : ℚ)⟩,
    ⟨40, (240 : ℚ), (-100 : ℚ)⟩],
  bullets := [⟨59, (-90 : ℚ), (-180 : ℚ)⟩],
  enemy_bullets := [],
  direction := (1 : ℚ),
  game_over := true,
  score := 0,
  lives := 3,
  level := 1,
  enemy_speed := (100 : ℚ),
  shoot_elapsed := (0 : ℚ),
  enemy_shoot_elapsed := (3/10 : ℚ),
  next_id := 60 }

/-- The state one further frame on: the bullet moved as well. -/
def c2_final : GameState :=
{ players := [⟨0, (-90 : ℚ), (-200 : ℚ)⟩],
  enemies := [⟨1, (-150 : ℚ), (-260 : ℚ)⟩,
    ⟨2, (-90 : ℚ), (-260 : ℚ)⟩,
    ⟨3, (-30 : ℚ), (-260 : ℚ)⟩,
    ⟨4, (30 : ℚ), (-260 : ℚ)⟩,
    ⟨5, (90 : ℚ), (-260 : ℚ)⟩,
    ⟨6, (150 : ℚ), (-260 : ℚ)⟩,
    ⟨7, (210 : ℚ), (-260 : ℚ)⟩,
    ⟨8, (270 : ℚ), (-260 : ℚ)⟩,
    ⟨9, (-150 : ℚ), (-220 : ℚ)⟩,
    ⟨10, (-90 : ℚ), (-220 : ℚ)⟩,
    ⟨11, (-30 : ℚ), (-220 : ℚ)⟩,
    ⟨12, (30 : ℚ), (-220 : ℚ)⟩,
    ⟨13, (90 : ℚ), (-220 : ℚ)⟩,
    ⟨14, (150 : ℚ), (-220 : ℚ)⟩,
    ⟨15, (210 : ℚ), (-220 : ℚ)⟩,
    ⟨16, (270 : ℚ), (-220 : ℚ)⟩,
    ⟨17, (-150 : ℚ), (-180 : ℚ)⟩,
    ⟨18, (-90 : ℚ), (-180 : ℚ)⟩,
    ⟨19, (-30 : ℚ), (-180 : ℚ)⟩,
    ⟨20, (30 : ℚ), (-180 : ℚ)⟩,
    ⟨21, (90 : ℚ), (-180 : ℚ)⟩,
    ⟨22, (150 : ℚ), (-180 : ℚ)⟩,
    ⟨23, (210 : ℚ), (-180 : ℚ)⟩,
    ⟨24, (270 : ℚ), (-180 : ℚ)⟩,
    ⟨25, (-150 : ℚ), (-140 : ℚ)⟩,
    ⟨26, (-90 : ℚ), (-140 : ℚ)⟩,
    ⟨27, (-30 : ℚ), (-140 : ℚ)⟩,
    ⟨28, (30 : ℚ), (-140 : ℚ)⟩,
    ⟨29, (90 : ℚ), (-140 : ℚ)⟩,
    ⟨30, (150 : ℚ), (-140 : ℚ)⟩,
    ⟨31, (210 : ℚ), (-140 : ℚ)⟩,
    ⟨32, (270 : ℚ), (-140 : ℚ)⟩,
    ⟨33, (-150 : ℚ), (-100 : ℚ)⟩,
    ⟨34, (-90 : ℚ), (-100 : ℚ)⟩,
    ⟨35, (-30 : ℚ), (-100 : ℚ)⟩,
    ⟨36, (30 : ℚ), (-100 : ℚ)⟩,
    ⟨37, (90 : ℚ), (-100 : ℚ)⟩,
    ⟨38, (150 : ℚ), (-100 : ℚ)⟩,
    ⟨39, (210 : ℚ), (-100 : ℚ)⟩,
    ⟨40, (270 : ℚ), (-100 : ℚ)⟩],
  bullets := [⟨59, (-90 : ℚ), (-30 : ℚ)⟩],
  enemy_bullets := [],
  direction := (1 : ℚ),
  game_over := true,
  score := 0,
  lives := 3,
  level := 1,
  enemy_speed := (100 : ℚ),
  shoot_elapsed := (0 : ℚ),
  enemy_shoot_elapsed := (3/5 : ℚ),
  next_id := 60 }

/-- The 18-frame prefix evaluates as recorded. -/
theorem run_c2_prefix_eq : run 640 init_state c2_prefix = c2_mid := by
  with_unfolding_all rfl

/-- The movement/firing frame after game over evaluates as recorded. -/
theorem frame_c2_move_eq : frame 640 c2_move_input c2_mid = c2_after := by
  with_unfolding_all rfl

/-- The further frame evaluates as recorded. -/
theorem frame_c2_wait_eq : frame 640 c2_wait_input c2_after = c2_final := by
  with_unfolding_all rfl

/-- C2 counterexample: a reachable state (18 frames of forced step-downs
drive an enemy to y ≤ -250, so `check_game_over` set the flag) in which the
game-over flag is set, yet the next frame still moves the player, moves the
formation, spawns a player projectile, and the frame after that moves the
projectile — the movement and firing systems are not inert. -/
theorem c2_not_gated_counterexample :
    (run 640 init_state c2_prefix).game_over = true ∧
    (frame 640 c2_move_input (run 640 init_state c2_prefix)).players ≠
      (run 640 init_state c2_prefix).players ∧
    (frame 640 c2_move_input (run 640 init_state c2_prefix)).bullets ≠ [] ∧
    (frame 640 c2_move_input (run 640 init_state c2_prefix)).enemies ≠
      (run 640 init_state c2_prefix).enemies ∧
    (frame 640 c2_move_input (run 640 init_state c2_prefix)).game_over = true ∧
    (frame 640 c2_wait_input (frame 640 c2_move_input (run 640 init_state c2_prefix))).bullets ≠
      (frame 640 c2_move_input (run 640 init_state c2_prefix)).bullets := by
  rw [run_c2_prefix_eq, frame_c2_move_eq, frame_c2_wait_eq]
  refine ⟨rfl, ?_, ?_, ?_, rfl, ?_⟩ <;> with_unfolding_all decide

/-- C9 counterexample: after the concrete `bad_inputs` schedule — which
never presses R and presses N exactly once, on its last frame — the world
holds a live player while `PlayerLives` is 0: `next_level` consulted only
the emptiness of the enemy query, so it ran in a game-over state and
respawned the player without touching `PlayerLives`. -/
theorem c9_zero_lives_counterexample :
    (run 640 init_state bad_inputs).players ≠ [] ∧
    (run 640 init_state bad_inputs).lives = 0 := by
  rw [run_bad_inputs_eq]
  exact ⟨List.cons_ne_nil _ _, rfl⟩

/-- C4: evaluating the code at the failing input.  `bad_inputs` reaches a
live player with `PlayerLives = 0`; the `wrap_inputs` continuation has the
fresh wave shoot that player, and the unguarded u32 `lives.0 -= 1` of
`enemy_bullet_player_collision` wraps `PlayerLives` to 2^32 - 1 instead of
flooring at 0 (in a debug build the Rust code panics here). -/
theorem c4_lives_underflow_eval :
    (run 640 init_state bad_inputs).players ≠ [] ∧
    (run 640 init_state bad_inputs).lives = 0 ∧
    (run 640 init_state (bad_inputs ++ wrap_inputs)).lives = 4294967295 := by
  refine ⟨?_, ?_, ?_⟩
  · rw [run_bad_inputs_eq]
    exact List.cons_ne_nil _ _
  · rw [run_bad_inputs_eq]
    exact rfl
  · rw [run_append, run_bad_inputs_eq, run_wrap_chunk]
    exact rfl
